import Mathlib

/-!
Verification development for the BloodLink conversational blood-request
intake engine (`aiService`): a shallow embedding of the session state
machine, its extractors and validators, together with theorems about the
claims of the specification.

Modelling conventions:
* JS strings are modelled as Lean `String` over their characters; all inputs
  considered are ASCII, for which `Char.toLower`/`Char.toUpper` agree with
  JS `toLowerCase`/`toUpperCase` and `String.length` agrees with JS `length`.
* JS `number` is modelled exactly: integers by `Int`, decimals by `Rat`
  (the validator thresholds 1, 10, 7, 20 and the date window are exact, so
  no float-rounding behaviour is observable at the granularity used here).
* JS `Date` values at local midnight are modelled by their civil day number
  (days since 1970-01-01), with the constructor's month/day overflow
  normalisation and the 0–99 → 1900+y year rule reproduced.
* `undefined`/absent string fields are `Option.none`; JS truthiness of a
  string field (`undefined` and `""` are falsy) is `jsTruthy`.
-/

namespace BloodLink

/-! ## Basic JS string helpers -/

/-- Whitespace as matched by JS `\s` (restricted to its ASCII members). -/
def jsIsWs (c : Char) : Bool :=
  c = ' ' || c = '\t' || c = '\n' || c = '\r' || c = '\x0b' || c = '\x0c'

/-- `isPfx p l` : the char list `p` is a prefix of `l`. -/
def isPfx : List Char → List Char → Bool
  | [], _ => true
  | _ :: _, [] => false
  | a :: as, b :: bs => a = b && isPfx as bs

/-- `subsearch p l` : the char list `p` occurs as a contiguous sublist of `l`. -/
def subsearch (pat : List Char) : List Char → Bool
  | [] => isPfx pat []
  | c :: xs => isPfx pat (c :: xs) || subsearch pat xs

/-- JS `hay.includes(pat)` (case-sensitive substring containment). -/
def containsStr (hay pat : String) : Bool :=
  subsearch pat.data hay.data

/-- JS `toLowerCase` (ASCII). -/
def jsLower (s : String) : String := String.mk (s.data.map Char.toLower)

/-- JS `toUpperCase` (ASCII). -/
def jsUpper (s : String) : String := String.mk (s.data.map Char.toUpper)

/-- JS `s.split(sep)` for a one-character separator. -/
def splitOnChar (sep : Char) : List Char → List (List Char)
  | [] => [[]]
  | c :: rest =>
    let r := splitOnChar sep rest
    if c = sep then [] :: r
    else
      match r with
      | h :: t => (c :: h) :: t
      | [] => [[c]]

/-- JS `s.split('/')`, as a list of strings. -/
def jsSplitSlash (s : String) : List String :=
  (splitOnChar '/' s.data).map String.mk

/-- JS `trim` on a char list: drop whitespace from both ends. -/
def jsTrimList (l : List Char) : List Char :=
  ((l.dropWhile jsIsWs).reverse.dropWhile jsIsWs).reverse

/-- JS `s.trim()`. -/
def jsTrim (s : String) : String := String.mk (jsTrimList s.data)

/-- JS truthiness of a possibly-absent string (`undefined` and `""` are falsy). -/
def jsTruthy : Option String → Bool
  | none => false
  | some s => !(s = "")

/-- JS `x || d` for a possibly-absent string `x` and default `d`. -/
def jsOrStr (o : Option String) (d : String) : String :=
  match o with
  | none => d
  | some s => if s = "" then d else s

/-- Template-literal interpolation of a possibly-`undefined` string. -/
def showOpt (o : Option String) : String := o.getD "undefined"

/-! ## JS number parsing -/

/-- Digit value of a decimal digit character. -/
def digitVal (c : Char) : Nat := c.toNat - '0'.toNat

/-- Value of a list of decimal digits (most significant first). -/
def digitsVal (l : List Char) : Nat :=
  l.foldl (fun acc c => acc * 10 + digitVal c) 0

/-- Value of a list of hexadecimal digits (most significant first). -/
def hexDigitsVal (l : List Char) : Nat :=
  l.foldl (fun acc c =>
    acc * 16 +
      (if c.isDigit then digitVal c
       else if 'a' ≤ c.toLower && c.toLower ≤ 'f' then c.toLower.toNat - 'a'.toNat + 10
       else 0)) 0

def isHexDigit (c : Char) : Bool :=
  c.isDigit || ('a' ≤ c.toLower && c.toLower ≤ 'f')

/-- JS `parseInt(s)` (radix unspecified): skip leading whitespace, optional
sign, auto-detected `0x` hex prefix, then the longest digit prefix; `NaN`
(here `none`) if no digit is found. Trailing garbage is ignored. -/
def jsParseInt (s : String) : Option Int :=
  let l := s.data.dropWhile jsIsWs
  let (sgn, l) : Int × List Char :=
    match l with
    | '-' :: rest => (-1, rest)
    | '+' :: rest => (1, rest)
    | rest => (1, rest)
  match l with
  | '0' :: x :: rest =>
    if x = 'x' || x = 'X' then
      let ds := rest.takeWhile isHexDigit
      if ds.isEmpty then none else some (sgn * (hexDigitsVal ds : Int))
    else
      let ds := ('0' :: x :: rest).takeWhile Char.isDigit
      if ds.isEmpty then none else some (sgn * (digitsVal ds : Int))
  | _ =>
    let ds := l.takeWhile Char.isDigit
    if ds.isEmpty then none else some (sgn * (digitsVal ds : Int))

/-- `pow10 k = 10 ^ k`, by plain structural recursion (kernel-computable). -/
def pow10 : Nat → Nat
  | 0 => 1
  | n + 1 => 10 * pow10 n

/-- JS `parseFloat(s)`: skip leading whitespace, optional sign, longest prefix
of the form `digits[.digits][e[sign]digits]` (also `.digits`); `NaN` (`none`)
if no digit occurs in the mantissa. (`Infinity` literals, which the validator
below rejects just like `NaN`, are also mapped to `none`.) The exact decimal
value is returned as a pair `(mant, expo)` denoting `mant * 10 ^ expo`. -/
def jsParseFloat (s : String) : Option (Int × Int) :=
  let l := s.data.dropWhile jsIsWs
  let (sgn, l) : Int × List Char :=
    match l with
    | '-' :: rest => (-1, rest)
    | '+' :: rest => (1, rest)
    | rest => (1, rest)
  let ipart := l.takeWhile Char.isDigit
  let rest := l.dropWhile Char.isDigit
  let (fpart, rest) : List Char × List Char :=
    match rest with
    | '.' :: r => (r.takeWhile Char.isDigit, r.dropWhile Char.isDigit)
    | r => ([], r)
  if ipart.isEmpty && fpart.isEmpty then none
  else
    let mant : Int := sgn * ((digitsVal ipart * pow10 fpart.length + digitsVal fpart : Nat) : Int)
    let expo : Int :=
      match rest with
      | e :: r =>
        if e = 'e' || e = 'E' then
          let (esgn, r) : Int × List Char :=
            match r with
            | '-' :: r2 => (-1, r2)
            | '+' :: r2 => (1, r2)
            | r2 => (1, r2)
          let ds := r.takeWhile Char.isDigit
          if ds.isEmpty then 0 else esgn * (digitsVal ds : Int)
        else 0
      | [] => 0
    some (mant, expo - (fpart.length : Int))

/-- `m * 10 ^ e ≤ n`, decided exactly over the integers. -/
def scaledLeInt (m e n : Int) : Bool :=
  if 0 ≤ e then m * (pow10 e.toNat : Int) ≤ n else m ≤ n * (pow10 (-e).toNat : Int)

/-- `n ≤ m * 10 ^ e`, decided exactly over the integers. -/
def intLeScaled (n m e : Int) : Bool :=
  if 0 ≤ e then n ≤ m * (pow10 e.toNat : Int) else n * (pow10 (-e).toNat : Int) ≤ m

/-! ## Civil-date arithmetic (JS `Date` at local midnight) -/

/-- Days since 1970-01-01 of the civil date `y-m-d` (month 1–12; the formula
is linear in `d`, so out-of-range day values roll over exactly as JS does). -/
def daysFromCivil (y m d : Int) : Int :=
  let y' := if m ≤ 2 then y - 1 else y
  let era := Int.fdiv y' 400
  let yoe := y' - era * 400
  let mp := if m > 2 then m - 3 else m + 9
  let doy := Int.fdiv (153 * mp + 2) 5 + d - 1
  let doe := yoe * 365 + Int.fdiv yoe 4 - Int.fdiv yoe 100 + doy
  era * 146097 + doe - 719468

/-- Civil date `(y, m, d)` of a day number (inverse of `daysFromCivil`). -/
def civilFromDays (z : Int) : Int × Int × Int :=
  let z' := z + 719468
  let era := Int.fdiv z' 146097
  let doe := z' - era * 146097
  let yoe := Int.fdiv (doe - Int.fdiv doe 1460 + Int.fdiv doe 36524 - Int.fdiv doe 146096) 365
  let y := yoe + era * 400
  let doy := doe - (365 * yoe + Int.fdiv yoe 4 - Int.fdiv yoe 100)
  let mp := Int.fdiv (5 * doy + 2) 153
  let d := doy - Int.fdiv (153 * mp + 2) 5 + 1
  let m := if mp < 10 then mp + 3 else mp - 9
  (if m ≤ 2 then y + 1 else y, m, d)

/-- JS `MakeDay(y, m, d)` with 0-based month `m` of arbitrary size: month
overflow moves into the year, day overflow rolls over inside
`daysFromCivil`. -/
def jsMakeDay (y m d : Int) : Int :=
  let ym := y + Int.fdiv m 12
  let mn := m - 12 * Int.fdiv m 12
  daysFromCivil ym (mn + 1) d

/-- Day number of `new Date(y, m, d)` (0-based month), including the JS rule
that a year 0–99 denotes 1900+y. -/
def jsDateDay (y m d : Int) : Int :=
  jsMakeDay (if 0 ≤ y && y ≤ 99 then 1900 + y else y) m d

/-- `n.toString().padStart(2, '0')` for a non-negative integer. -/
def pad2 (n : Int) : String :=
  let s := toString n
  if s.length < 2 then "0" ++ s else s

/-- The `DD/MM/YYYY` formatting used by the service for a day number. -/
def jsFormatDate (day : Int) : String :=
  let c := civilFromDays day
  pad2 c.2.2 ++ "/" ++ pad2 c.2.1 ++ "/" ++ toString c.1

/-- `s.padStart(2, '0')` for a string. -/
def padStart2 (s : String) : String :=
  if s.length < 2 then "0" ++ s else s

/-! ## Validators (from the source) -/

/-- `validateHemoglobin`: float parse succeeds and 7 ≤ x ≤ 20. -/
def validateHemoglobin (level : String) : Bool :=
  match jsParseFloat level with
  | none => false
  | some (m, e) => intLeScaled 7 m e && scaledLeInt m e 20

/-- `validateBloodBags`: integer parse succeeds and 1 ≤ n ≤ 10. -/
def validateBloodBags (bags : String) : Bool :=
  match jsParseInt bags with
  | none => false
  | some n => 1 ≤ n && n ≤ 10

/-- `validateDate` relative to a fixed `todayDay` (civil day number of local
midnight today): split on `/` into exactly three parts, `parseInt` each, and
require `new Date(y, m-1, d)` to fall within `[today, today+30]`. -/
def validateDate (todayDay : Int) (dateStr : String) : Bool :=
  match jsSplitSlash dateStr with
  | [p1, p2, p3] =>
    match jsParseInt p1, jsParseInt p2, jsParseInt p3 with
    | some d, some m, some y =>
      let inputDay := jsDateDay y (m - 1) d
      todayDay ≤ inputDay && inputDay ≤ todayDay + 30
    | _, _, _ => false
  | _ => false

/-- Minute part `[0-5][0-9]`. -/
def minOk (m1 m2 : Char) : Bool :=
  ('0' ≤ m1 && m1 ≤ '5') && m2.isDigit

/-- 24-hour hour part `[01]?[0-9]|2[0-3]`, two-character form. -/
def milHour2 (h1 h2 : Char) : Bool :=
  ((h1 = '0' || h1 = '1') && h2.isDigit) || (h1 = '2' && ('0' ≤ h2 && h2 ≤ '3'))

/-- 12-hour hour part `1[0-2]|0?[1-9]`, two-character form. -/
def twelveHour2 (h1 h2 : Char) : Bool :=
  (h1 = '1' && ('0' ≤ h2 && h2 ≤ '2')) || (h1 = '0' && ('1' ≤ h2 && h2 ≤ '9'))

def ampmOk (a p : Char) : Bool :=
  ((a = 'A' && p = 'M') || (a = 'P' && p = 'M') || (a = 'a' && p = 'm') || (a = 'p' && p = 'm'))

/-- `validateTime`: the anchored regex `^([01]?[0-9]|2[0-3]):([0-5][0-9])$`
or `^(1[0-2]|0?[1-9]):([0-5][0-9])\s?(AM|PM|am|pm)$`, decided by direct
pattern analysis of the character list. -/
def validateTime (timeStr : String) : Bool :=
  (match timeStr.data with
   | [h, ':', m1, m2] => h.isDigit && minOk m1 m2
   | [h1, h2, ':', m1, m2] => milHour2 h1 h2 && minOk m1 m2
   | _ => false) ||
  (match timeStr.data with
   | [h, ':', m1, m2, a, p] => ('1' ≤ h && h ≤ '9') && minOk m1 m2 && ampmOk a p
   | [x1, x2, x3, x4, x5, x6, x7] =>
     (x2 = ':' && ('1' ≤ x1 && x1 ≤ '9') && minOk x3 x4 && jsIsWs x5 && ampmOk x6 x7) ||
     (x3 = ':' && twelveHour2 x1 x2 && minOk x4 x5 && ampmOk x6 x7)
   | [x1, x2, ':', m1, m2, sp, a, p] =>
     twelveHour2 x1 x2 && minOk m1 m2 && jsIsWs sp && ampmOk a p
   | _ => false)

/-! ## A small backtracking regular-expression engine

The service's field extraction uses a handful of JS regular expressions.
They are modelled by a fuel-indexed backtracking matcher with JS semantics:
leftmost starting position wins, alternation prefers the left branch, greedy
(resp. lazy) repetition prefers longer (resp. shorter) matches, `$` matches
only at the end of the input, and capture groups record the consumed
substring. -/

inductive RE where
  | emp : RE
  | cls (p : Char → Bool) : RE
  | seq (a b : RE) : RE
  | alt (a b : RE) : RE
  | quant (greedy : Bool) (lo : Nat) (hi : Option Nat) (inner : RE) : RE
  | grp (idx : Nat) (inner : RE) : RE
  | eos : RE

/-- Capture environment: group index ↦ consumed characters. -/
def Caps := List (Nat × List Char)

/-- Backtracking matcher in continuation-passing style. `mrun f r s cp k`
tries to match `r` against a prefix of `s` with captures `cp`, calling the
continuation `k` on the rest; `none` propagates failure so that earlier
choice points are retried. The fuel `f` only bounds recursion depth; all
uses supply enough fuel for the inputs evaluated. -/
def mrun : Nat → RE → List Char → Caps → (List Char → Caps → Option Caps) → Option Caps
  | 0, _, _, _, _ => none
  | _ + 1, RE.emp, s, cp, k => k s cp
  | _ + 1, RE.cls p, s, cp, k =>
    match s with
    | [] => none
    | x :: xs => if p x then k xs cp else none
  | f + 1, RE.seq a b, s, cp, k => mrun f a s cp (fun s' cp' => mrun f b s' cp' k)
  | f + 1, RE.alt a b, s, cp, k =>
    match mrun f a s cp k with
    | some r => some r
    | none => mrun f b s cp k
  | _ + 1, RE.eos, s, cp, k =>
    match s with
    | [] => k [] cp
    | _ => none
  | f + 1, RE.grp i a, s, cp, k =>
    mrun f a s cp (fun s' cp' => k s' ((i, s.take (s.length - s'.length)) :: cp'))
  | f + 1, RE.quant g lo hi a, s, cp, k =>
    if lo > 0 then
      mrun f a s cp (fun s' cp' => mrun f (RE.quant g (lo - 1) (hi.map (· - 1)) a) s' cp' k)
    else
      match hi with
      | some 0 => k s cp
      | _ =>
        let once : Unit → Option Caps := fun _ =>
          mrun f a s cp (fun s' cp' =>
            if s'.length < s.length then mrun f (RE.quant g 0 (hi.map (· - 1)) a) s' cp' k
            else none)
        if g then
          match once () with
          | some r => some r
          | none => k s cp
        else
          match k s cp with
          | some r => some r
          | none => once ()

/-- Fuel that is generous for the patterns and inputs used here. -/
def fuelFor (s : List Char) : Nat := (s.length + 4) * 64 + 256

/-- JS `str.match(re)` (unanchored): try each start position left to right,
returning the captures of the first successful match. -/
def reFindFrom (f : Nat) (r : RE) : List Char → Option Caps
  | [] => mrun f r [] [] (fun _ cp => some cp)
  | c :: xs =>
    match mrun f r (c :: xs) [] (fun _ cp => some cp) with
    | some cp => some cp
    | none => reFindFrom f r xs

def reFind (r : RE) (s : List Char) : Option Caps :=
  reFindFrom (fuelFor s) r s

/-- Look up capture group `i`. -/
def capGet (cp : Caps) (i : Nat) : Option (List Char) :=
  (List.find? (fun q => q.1 = i) cp).map (fun q => q.2)

/-- Case-insensitive literal character (the `/i` flag). -/
def ci (c : Char) : RE := RE.cls (fun x => x.toLower = c.toLower)

/-- Case-insensitive literal string. -/
def ciStr (s : String) : RE :=
  s.data.foldr (fun c r => RE.seq (ci c) r) RE.emp

def reDigit : RE := RE.cls Char.isDigit
def reWs : RE := RE.cls jsIsWs
/-- The class `[A-Za-z\s]`. -/
def reAzWs : RE := RE.cls (fun c => c.isAlpha || jsIsWs c)
/-- The class `[A-Za-z\s,]`. -/
def reAzWsComma : RE := RE.cls (fun c => c.isAlpha || jsIsWs c || c = ',')

def rePlus (g : Bool) (r : RE) : RE := RE.quant g 1 none r
def reOpt (r : RE) : RE := RE.quant true 0 (some 1) r
def reRep (lo hi : Nat) (r : RE) : RE := RE.quant true lo (some hi) r

def altList : List RE → RE
  | [] => RE.emp
  | [r] => r
  | r :: rs => RE.alt r (altList rs)

def seqList : List RE → RE
  | [] => RE.emp
  | [r] => r
  | r :: rs => RE.seq r (seqList rs)

/-- `/(?:at|in|for)\s+([A-Za-z\s]+(?:Hospital|Medical|Clinic))/i` -/
def hospitalRE : RE :=
  seqList
    [ altList [ciStr "at", ciStr "in", ciStr "for"]
    , rePlus true reWs
    , RE.grp 1 (RE.seq (rePlus true reAzWs)
        (altList [ciStr "Hospital", ciStr "Medical", ciStr "Clinic"])) ]

/-- `/(?:in|at)\s+([A-Za-z\s,]+?)(?:\.|\,|for|blood|\s+need|\s+hospital|$)/i` -/
def locationRE : RE :=
  seqList
    [ altList [ciStr "in", ciStr "at"]
    , rePlus true reWs
    , RE.grp 1 (rePlus false reAzWsComma)
    , altList [ciStr ".", ciStr ",", ciStr "for", ciStr "blood",
               RE.seq (rePlus true reWs) (ciStr "need"),
               RE.seq (rePlus true reWs) (ciStr "hospital"), RE.eos] ]

/-- `` new RegExp(`${keyword}\s+([A-Za-z\s]+?)(?:\.|,|\s+|$)`, 'i') `` -/
def keywordCaptureRE (keyword : String) : RE :=
  seqList
    [ ciStr keyword
    , rePlus true reWs
    , RE.grp 1 (rePlus false reAzWs)
    , altList [ciStr ".", ciStr ",", rePlus true reWs, RE.eos] ]

/-- `/(\d+)\s+(?:bag|bags|unit|units)/i` -/
def bagUnitsRE : RE :=
  seqList
    [ RE.grp 1 (rePlus true reDigit)
    , rePlus true reWs
    , altList [ciStr "bag", ciStr "bags", ciStr "unit", ciStr "units"] ]

/-- `/(\d+)/` -/
def firstIntRE : RE := RE.grp 1 (rePlus true reDigit)

/-- `/(\d+(\.\d+)?)/` -/
def decimalRE : RE :=
  RE.grp 1 (RE.seq (rePlus true reDigit)
    (reOpt (RE.seq (RE.cls (fun c => c = '.')) (rePlus true reDigit))))

/-- `/(\d{1,2})[\/\-](\d{1,2})[\/\-](\d{4})/` -/
def dateRE : RE :=
  let sep := RE.cls (fun c => c = '/' || c = '-')
  seqList
    [ RE.grp 1 (reRep 1 2 reDigit), sep
    , RE.grp 2 (reRep 1 2 reDigit), sep
    , RE.grp 3 (reRep 4 4 reDigit) ]

/-- Run a single-capture regex against a message, returning group 1. -/
def matchCap1 (r : RE) (msg : String) : Option String :=
  (reFind r msg.data).bind (fun cp => (capGet cp 1).map String.mk)

/-! ## Extractors (from the source) -/

/-- The 8 canonical blood-type tokens, in the order the code checks them. -/
def bloodTypesList : List String := ["A+", "A-", "B+", "B-", "AB+", "AB-", "O+", "O-"]

/-- The `for`-loop of `extractBloodType`: first listed token contained in the
message (case-sensitively). -/
def firstContained (msg : String) : List String → Option String
  | [] => none
  | t :: ts => if containsStr msg t then some t else firstContained msg ts

/-- `extractBloodType`: exact substring match against the canonical tokens,
then case-insensitive verbose synonym patterns. -/
def extractBloodType (msg : String) : Option String :=
  match firstContained msg bloodTypesList with
  | some t => some t
  | none =>
    let nm := jsUpper msg
    if containsStr nm "A POSITIVE" || containsStr nm "A +VE" then some "A+"
    else if containsStr nm "A NEGATIVE" || containsStr nm "A -VE" then some "A-"
    else if containsStr nm "B POSITIVE" || containsStr nm "B +VE" then some "B+"
    else if containsStr nm "B NEGATIVE" || containsStr nm "B -VE" then some "B-"
    else if containsStr nm "AB POSITIVE" || containsStr nm "AB +VE" then some "AB+"
    else if containsStr nm "AB NEGATIVE" || containsStr nm "AB -VE" then some "AB-"
    else if containsStr nm "O POSITIVE" || containsStr nm "O +VE" then some "O+"
    else if containsStr nm "O NEGATIVE" || containsStr nm "O -VE" then some "O-"
    else none

/-- `extractDate`, relative to the civil day number `dayNow` of the current
clock: the literal words `today`/`tomorrow` resolve to formatted dates,
otherwise the 1–2-digit day / 1–2-digit month / 4-digit year pattern
(separated by slash or hyphen) is matched and zero-padded. -/
def extractDate (dayNow : Int) (msg : String) : Option String :=
  if containsStr (jsLower msg) "today" then some (jsFormatDate dayNow)
  else if containsStr (jsLower msg) "tomorrow" then some (jsFormatDate (dayNow + 1))
  else
    match reFind dateRE msg.data with
    | some cp =>
      match capGet cp 1, capGet cp 2, capGet cp 3 with
      | some d, some m, some y =>
        some (padStart2 (String.mk d) ++ "/" ++ padStart2 (String.mk m) ++ "/" ++ String.mk y)
      | _, _, _ => none
    | none => none

/-- The record built by `extractAdditionalInfo`. -/
structure ExtInfo where
  bloodType : Option String
  hospital : Option String
  location : Option String
  zone : Option String
  patientProblem : Option String
  bagNeeded : Option String
deriving DecidableEq, Repr

/-- First keyword (in order) whose capture regex matches, returning the
trimmed capture — the `for`/`break` loops of `extractAdditionalInfo`. -/
def keywordLoop (msg : String) : List String → Option String
  | [] => none
  | kw :: kws =>
    match matchCap1 (keywordCaptureRE kw) msg with
    | some c => some (jsTrim c)
    | none => keywordLoop msg kws

/-- `extractAdditionalInfo`: opportunistic per-field extraction from a
message. -/
def extractAdditionalInfo (msg : String) : ExtInfo :=
  { bloodType := extractBloodType msg
    hospital := (matchCap1 hospitalRE msg).map jsTrim
    location := (matchCap1 locationRE msg).map jsTrim
    zone := keywordLoop msg ["zone", "area", "district"]
    patientProblem := keywordLoop msg ["problem", "condition", "diagnosis", "patient has", "suffering from"]
    bagNeeded := matchCap1 bagUnitsRE msg }

/-! ## The session state machine (from the source) -/

inductive Stage where
  | initial | bloodType | hospital | location | zone | patientProblem
  | bagNeeded | date | time | hemoglobinPoint | additionalInfo | confirmation
deriving DecidableEq, Repr

/-- `BloodRequestSession`: the per-requester intake state. `lastUpdated` is
a millisecond timestamp. -/
structure Session where
  stage : Stage
  bloodType : Option String := none
  hospital : Option String := none
  location : Option String := none
  zone : Option String := none
  patientProblem : Option String := none
  bagNeeded : Option String := none
  date : Option String := none
  time : Option String := none
  hemoglobinPoint : Option String := none
  additionalInfo : Option String := none
  lastUpdated : Int
deriving DecidableEq, Repr

/-- The document handed to `BloodRequest.create` (the persistence
collaborator); `requester` keeps the requester id as a string. -/
structure BloodRecord where
  bloodType : String
  hospital : String
  location : String
  hemoglobinPoint : String
  patientProblem : String
  bagNeeded : String
  zone : String
  date : String
  time : String
  additionalInfo : String
  requester : String
  status : String
  viewCount : Nat
deriving DecidableEq, Repr

/-- Result of one `processBloodRequestSession` turn: the surviving session
(`none` when the session was deleted), the record passed to
`BloodRequest.create` (`none` when the persistence collaborator was not
invoked this turn), and the reply string. -/
structure StepRes where
  sess : Option Session
  created : Option BloodRecord
  reply : String
deriving DecidableEq, Repr

/-- One guarded opportunistic-backfill assignment:
`if (extracted.f && !session.f) session.f = extracted.f`. -/
def upd (cur ext : Option String) : Option String :=
  if jsTruthy ext && !jsTruthy cur then ext else cur

/-- The opportunistic extraction pass run on every message before stage
dispatch (source lines 170–177), together with the `lastUpdated` refresh. -/
def backfill (msg : String) (s : Session) : Session :=
  let e := extractAdditionalInfo msg
  { s with
      bloodType := upd s.bloodType e.bloodType
      hospital := upd s.hospital e.hospital
      location := upd s.location e.location
      zone := upd s.zone e.zone
      patientProblem := upd s.patientProblem e.patientProblem
      bagNeeded := upd s.bagNeeded e.bagNeeded }

/-- Civil day number of a millisecond clock value (server clock in UTC). -/
def dayOf (nowMs : Int) : Int := Int.fdiv nowMs 86400000

/-- The affirmative test of the confirmation stage:
`msg.toLowerCase()` contains `yes`, `correct` or `right`. -/
def affirmative (msg : String) : Bool :=
  containsStr (jsLower msg) "yes" || containsStr (jsLower msg) "correct" ||
    containsStr (jsLower msg) "right"

/-- The negative test of the confirmation stage:
`msg.toLowerCase()` contains `no`, `wrong` or `incorrect`. -/
def negativeReply (msg : String) : Bool :=
  containsStr (jsLower msg) "no" || containsStr (jsLower msg) "wrong" ||
    containsStr (jsLower msg) "incorrect"

/-- The required-field check before commit (`!session.bloodType || ...`). -/
def missingRequired (s : Session) : Bool :=
  !jsTruthy s.bloodType || !jsTruthy s.hospital || !jsTruthy s.location ||
    !jsTruthy s.zone || !jsTruthy s.patientProblem || !jsTruthy s.bagNeeded ||
    !jsTruthy s.date || !jsTruthy s.time

/-- The blood-type prompt issued when a new session is opened. -/
def openingPrompt : String :=
  "I'd be happy to help you create a blood request. Let's go through the process step by step:\n\n1. What blood type do you need? (A+, A-, B+, B-, AB+, AB-, O+, O-)"

/-- The blood-type prompt issued after a negative confirmation reset. -/
def resetPrompt : String :=
  "I'm sorry about that. Let's start over. What blood type do you need? (A+, A-, B+, B-, AB+, AB-, O+, O-)"

/-- The apology returned when the commit fails. -/
def apologyReply : String :=
  "I'm sorry, I couldn't create your blood request due to a technical issue. Please try using the 'Create Request' feature directly from the app menu."

/-- The re-prompt of the confirmation stage. -/
def yesNoReprompt : String :=
  "Please confirm if the information is correct by saying 'Yes' or 'No'."

/-- The confirmation summary rendered when entering the confirmation stage. -/
def confirmationSummary (s : Session) : String :=
  let base :=
    "Thank you for providing all the details. Please confirm the following information:\n\n" ++
    "Blood Type: " ++ showOpt s.bloodType ++ "\n" ++
    "Hospital: " ++ showOpt s.hospital ++ "\n" ++
    "Location: " ++ showOpt s.location ++ "\n" ++
    "Zone: " ++ showOpt s.zone ++ "\n" ++
    "Patient's Condition: " ++ showOpt s.patientProblem ++ "\n" ++
    "Bags Needed: " ++ showOpt s.bagNeeded ++ "\n" ++
    "Date: " ++ showOpt s.date ++ "\n" ++
    "Time: " ++ showOpt s.time ++ "\n"
  let base :=
    if jsTruthy s.hemoglobinPoint && !(s.hemoglobinPoint == some "Not specified") then
      base ++ "Hemoglobin Level: " ++ showOpt s.hemoglobinPoint ++ "\n"
    else base
  let base :=
    if jsTruthy s.additionalInfo then
      base ++ "Additional Info: " ++ showOpt s.additionalInfo ++ "\n"
    else base
  base ++ "\nIs this information correct? (Yes/No)"

/-- The success message returned after a committed request. -/
def successReply (s : Session) (newId : String) : String :=
  "âœ… Success! I've created a blood request for you with the following details:\n          \n" ++
  "Blood Type: " ++ showOpt s.bloodType ++ "\n" ++
  "Hospital: " ++ showOpt s.hospital ++ "\n" ++
  "Location: " ++ showOpt s.location ++ "\n" ++
  "Zone: " ++ showOpt s.zone ++ "\n" ++
  "Patient's Condition: " ++ showOpt s.patientProblem ++ "\n" ++
  "Bags Needed: " ++ showOpt s.bagNeeded ++ "\n" ++
  "Date: " ++ showOpt s.date ++ "\n" ++
  "Time: " ++ showOpt s.time ++ "\n" ++
  (if jsTruthy s.hemoglobinPoint && !(s.hemoglobinPoint == some "Not specified") then
     "Hemoglobin Level: " ++ showOpt s.hemoglobinPoint ++ " g/dL\n" else "") ++ "\n" ++
  (if jsTruthy s.additionalInfo then "Additional Info: " ++ showOpt s.additionalInfo ++ "\n" else "") ++ "\n" ++
  "Request ID: " ++ newId ++
  "\n\nYour request is now active and potential donors can see it. You can check the status of your request in the \"My Requests\" section. Is there anything else you need help with?"

/-- The stage dispatch of `processBloodRequestSession`, applied to the
already-backfilled session. `day` is the civil day of the clock at message
arrival, `persistOk` the outcome of the external `BloodRequest.create`
call, `newId` the id it returns on success, `uid` the requester id. -/
def dispatch (day : Int) (persistOk : Bool) (newId uid msg : String) (s : Session) : StepRes :=
  match s.stage with
  | Stage.initial =>
    match extractBloodType msg with
    | some bt =>
      { sess := some { s with bloodType := some bt, stage := Stage.hospital }
        created := none
        reply := "Great! You need " ++ bt ++ " blood. Now, please tell me the name of the hospital where the blood is needed." }
    | none =>
      { sess := some s, created := none
        reply := "I need to know what blood type you're looking for. Please specify one of the following: A+, A-, B+, B-, AB+, AB-, O+, or O-." }
  | Stage.bloodType =>
    match extractBloodType msg with
    | some bt =>
      { sess := some { s with bloodType := some bt, stage := Stage.hospital }
        created := none
        reply := "Thank you! You need " ++ bt ++ " blood. Now, please tell me the name of the hospital where the blood is needed." }
    | none =>
      { sess := some s, created := none
        reply := "I still need to know what blood type you're looking for. Please specify one of the following: A+, A-, B+, B-, AB+, AB-, O+, or O-." }
  | Stage.hospital =>
    if msg.length > 3 then
      { sess := some { s with hospital := some (jsTrim msg), stage := Stage.location }
        created := none
        reply := "Got it! The hospital is " ++ jsTrim msg ++ ". Now, please provide the location/address of the hospital." }
    else
      { sess := some s, created := none
        reply := "Please provide the name of the hospital where the blood is needed." }
  | Stage.location =>
    if msg.length > 3 then
      { sess := some { s with location := some (jsTrim msg), stage := Stage.zone }
        created := none
        reply := "Thank you! The location is " ++ jsTrim msg ++ ". What zone or area is this in? (e.g., Dhanmondi, Gulshan, Mirpur)" }
    else
      { sess := some s, created := none
        reply := "Please provide the location or address of the hospital." }
  | Stage.zone =>
    if msg.length > 2 then
      { sess := some { s with zone := some (jsTrim msg), stage := Stage.patientProblem }
        created := none
        reply := "Got it! The zone is " ++ jsTrim msg ++ ". What is the patient's medical condition or reason for needing blood?" }
    else
      { sess := some s, created := none
        reply := "Please provide the zone or area where the hospital is located." }
  | Stage.patientProblem =>
    if msg.length > 3 then
      { sess := some { s with patientProblem := some (jsTrim msg), stage := Stage.bagNeeded }
        created := none
        reply := "I understand the patient's condition is: " ++ jsTrim msg ++ ". How many bags of blood are needed?" }
    else
      { sess := some s, created := none
        reply := "Please provide information about the patient's condition or reason for needing blood." }
  | Stage.bagNeeded =>
    match matchCap1 firstIntRE msg with
    | some bagValue =>
      if validateBloodBags bagValue then
        { sess := some { s with bagNeeded := some bagValue, stage := Stage.date }
          created := none
          reply := "Got it. When is the blood needed? Please provide a date in DD/MM/YYYY format, or say 'today' or 'tomorrow'." }
      else
        { sess := some s, created := none
          reply := "The number of blood bags you requested seems unusual. Typically, requests are for 1-10 bags. Please provide a valid number of bags needed." }
    | none =>
      { sess := some s, created := none
        reply := "I couldn't understand how many bags are needed. Please provide a number (e.g., 2 bags)." }
  | Stage.date =>
    match extractDate day msg with
    | some dateValue =>
      if validateDate day dateValue then
        { sess := some { s with date := some dateValue, stage := Stage.time }
          created := none
          reply := "Thank you. What time is the blood needed? Please provide a time in HH:MM format (e.g., 14:30) or H:MM AM/PM format (e.g., 2:30 PM)." }
      else
        { sess := some s, created := none
          reply := "The date you provided is either in the past or too far in the future. Please provide a date that is today or within the next 30 days." }
    | none =>
      { sess := some s, created := none
        reply := "I couldn't understand the date. Please provide a date in DD/MM/YYYY format, or say 'today' or 'tomorrow'." }
  | Stage.time =>
    if validateTime msg then
      { sess := some { s with time := some msg, stage := Stage.hemoglobinPoint }
        created := none
        reply := "Thank you. If you know, what is the patient's hemoglobin level? (Type 'skip' if you don't know)" }
    else
      { sess := some s, created := none
        reply := "I couldn't understand the time format. Please provide a time in HH:MM format (e.g., 14:30) or H:MM AM/PM format (e.g., 2:30 PM)." }
  | Stage.hemoglobinPoint =>
    if jsLower msg = "skip" || jsLower msg = "unknown" then
      { sess := some { s with hemoglobinPoint := some "Not specified", stage := Stage.additionalInfo }
        created := none
        reply := "That's fine. Do you have any additional information about the patient or the request? (Type 'skip' if none)" }
    else
      match matchCap1 decimalRE msg with
      | some hemoglobinValue =>
        if validateHemoglobin hemoglobinValue then
          { sess := some { s with hemoglobinPoint := some hemoglobinValue, stage := Stage.additionalInfo }
            created := none
            reply := "Thank you. Do you have any additional information about the patient or the request? (Type 'skip' if none)" }
        else
          { sess := some s, created := none
            reply := "The hemoglobin level you provided seems unusual. Normal hemoglobin levels are typically between 7-20 g/dL. Please provide a valid hemoglobin level or type 'skip' if you don't know." }
      | none =>
        { sess := some s, created := none
          reply := "I couldn't understand the hemoglobin level. Please provide a number (e.g., 12.5) or type 'skip' if you don't know." }
  | Stage.additionalInfo =>
    let s' := { s with
                  additionalInfo := some (if containsStr (jsLower msg) "skip" then "" else jsTrim msg)
                  stage := Stage.confirmation }
    { sess := some s', created := none, reply := confirmationSummary s' }
  | Stage.confirmation =>
    if affirmative msg then
      if missingRequired s then
        { sess := some { s with stage := Stage.initial }, created := none
          reply := "I'm missing some required information. Let's start over. What blood type do you need?" }
      else
        let bag1 : Option String :=
          if validateBloodBags (s.bagNeeded.getD "") then s.bagNeeded else some "1"
        let hp1 : Option String :=
          if jsTruthy s.hemoglobinPoint && !(s.hemoglobinPoint == some "Not specified") &&
              !validateHemoglobin (s.hemoglobinPoint.getD "") then
            some "Not specified"
          else s.hemoglobinPoint
        let dat1 : Option String :=
          if validateDate day (s.date.getD "") then s.date else some (jsFormatDate day)
        let s3 : Session := { s with bagNeeded := bag1, hemoglobinPoint := hp1, date := dat1 }
        let doc : BloodRecord :=
          { bloodType := s.bloodType.getD ""
            hospital := s.hospital.getD ""
            location := s.location.getD ""
            hemoglobinPoint := jsOrStr hp1 "Not specified"
            patientProblem := s.patientProblem.getD ""
            bagNeeded := bag1.getD ""
            zone := s.zone.getD ""
            date := dat1.getD ""
            time := s.time.getD ""
            additionalInfo := jsOrStr s.additionalInfo ""
            requester := uid
            status := "active"
            viewCount := 0 }
        if persistOk then
          { sess := none, created := some doc, reply := successReply s3 newId }
        else
          { sess := none, created := some doc, reply := apologyReply }
    else if negativeReply msg then
      let sReset : Session :=
        { s with stage := Stage.initial, bloodType := none, hospital := none, location := none,
                 zone := none, patientProblem := none, bagNeeded := none, date := none,
                 time := none, hemoglobinPoint := none, additionalInfo := none }
      { sess := some sReset, created := none, reply := resetPrompt }
    else
      { sess := some s, created := none, reply := yesNoReprompt }

/-- `processBloodRequestSession`: one turn of the dialogue state machine —
refresh `lastUpdated`, run the opportunistic extraction pass, then dispatch
on the current stage. -/
def procSession (nowMs : Int) (persistOk : Bool) (newId uid msg : String) (s0 : Session) : StepRes :=
  dispatch (dayOf nowMs) persistOk newId uid msg (backfill msg { s0 with lastUpdated := nowMs })

/-! ## The entry point `generateAIResponse` -/

/-- What `generateAIResponse` returns: either a structured-flow string or a
hand-off to the external fallback responder (the OpenAI proxy). -/
inductive Reply where
  | text (s : String) : Reply
  | fallback : Reply
deriving DecidableEq, Repr

/-- The fixed multi-word intent trigger phrases. -/
def bloodRequestKeywords : List String :=
  [ "create blood request", "need blood donation", "request blood donation",
    "looking for blood donor", "need blood urgently", "blood donation request" ]

/-- A fresh session as created by the intent detector. -/
def initSession (lu : Int) : Session := { stage := Stage.initial, lastUpdated := lu }

/-- Result of a `generateAIResponse` turn: stored session afterwards,
record given to the persistence collaborator (if any), and the reply. -/
structure GenRes where
  sess : Option Session
  created : Option BloodRecord
  reply : Reply
deriving DecidableEq, Repr

/-- The no-active-session path of `generateAIResponse`: intent detection,
otherwise fall through to the external responder. -/
def noSessionFlow (nowMs : Int) (msg : String) : GenRes :=
  if bloodRequestKeywords.any (fun k => containsStr (jsLower msg) (jsLower k)) then
    { sess := some (initSession nowMs), created := none, reply := Reply.text openingPrompt }
  else
    { sess := none, created := none, reply := Reply.fallback }

/-- `generateAIResponse` for a requester with stored session `sess` (the
requester id is assumed present): expiry check, session processing, intent
detection, fallback. -/
def genAIResponse (nowMs : Int) (persistOk : Bool) (newId uid : String)
    (sess : Option Session) (msg : String) : GenRes :=
  match sess with
  | some s =>
    if nowMs - s.lastUpdated > 30 * 60 * 1000 then
      noSessionFlow nowMs msg
    else
      let r := procSession nowMs persistOk newId uid msg s
      { sess := r.sess, created := r.created, reply := Reply.text r.reply }
  | none => noSessionFlow nowMs msg

/-- Sessions reachable in the service: created by the intent detector at
stage `initial` with no fields, and evolved by `processBloodRequestSession`
turns (with arbitrary clock values, messages and persistence outcomes). -/
inductive Reachable : Session → Prop where
  | base (lu : Int) : Reachable (initSession lu)
  | step (s s' : Session) (nowMs : Int) (pk : Bool) (nid uid msg : String) :
      Reachable s → (procSession nowMs pk nid uid msg s).sess = some s' → Reachable s'

/-! ## Helper lemmas -/

theorem upd_truthy {cur ext : Option String} (h : jsTruthy cur = true) : upd cur ext = cur := by
  simp [upd, h]

theorem upd_shape (cur ext : Option String) :
    upd cur ext = cur ∨ (jsTruthy ext = true ∧ upd cur ext = ext) := by
  unfold upd
  by_cases h : jsTruthy ext && !jsTruthy cur
  · rcases Bool.and_eq_true _ _ |>.mp h with ⟨h1, _⟩
    exact Or.inr ⟨h1, by simp [h]⟩
  · exact Or.inl (by simp [h])

theorem jsTruthy_some_ne {v : String} (h : v ≠ "") : jsTruthy (some v) = true := by
  simp [jsTruthy, h]

theorem validateBloodBags_ne_empty {v : String} (h : validateBloodBags v = true) : v ≠ "" := by
  intro he
  rw [he] at h
  exact absurd h (by decide)

theorem mem_bloodTypes_ne_empty {t : String} (h : t ∈ bloodTypesList) : t ≠ "" := by
  simp only [bloodTypesList, List.mem_cons, List.not_mem_nil, or_false] at h
  rcases h with rfl | rfl | rfl | rfl | rfl | rfl | rfl | rfl <;> decide

theorem firstContained_mem {msg t : String} :
    ∀ {l : List String}, firstContained msg l = some t → t ∈ l := by
  intro l
  induction l with
  | nil => intro h; exact absurd h (by simp [firstContained])
  | cons a as ih =>
    intro h
    unfold firstContained at h
    by_cases hc : containsStr msg a
    · rw [if_pos hc] at h
      exact Option.some_inj.mp h ▸ List.mem_cons_self a as
    · rw [if_neg hc] at h
      exact List.mem_cons_of_mem a (ih h)

theorem extractBloodType_mem {msg t : String} (h : extractBloodType msg = some t) :
    t ∈ bloodTypesList := by
  unfold extractBloodType at h
  cases hf : firstContained msg bloodTypesList with
  | some u =>
    rw [hf] at h
    (try dsimp only at h)
    exact Option.some_inj.mp h ▸ firstContained_mem hf
  | none =>
    rw [hf] at h
    (try dsimp only at h)
    split_ifs at h <;> simp only [Option.some_inj] at h <;> subst h <;> decide

/-! Trim lemmas: appending trailing whitespace does not change `jsTrim`. -/

theorem dropWhile_append_all {p : Char → Bool} :
    ∀ (a b : List Char), (∀ x ∈ a, p x = true) → (a ++ b).dropWhile p = b.dropWhile p := by
  intro a
  induction a with
  | nil => intro b _; rfl
  | cons c cs ih =>
    intro b h
    have hc : p c = true := h c (List.mem_cons_self c cs)
    simp only [List.cons_append, List.dropWhile_cons, hc, if_true]
    exact ih b (fun x hx => h x (List.mem_cons_of_mem c hx))

theorem dropWhile_all_nil {p : Char → Bool} :
    ∀ (w : List Char), (∀ x ∈ w, p x = true) → w.dropWhile p = [] := by
  intro w h
  induction w with
  | nil => rfl
  | cons a as ih =>
    simp only [List.dropWhile_cons, h a (List.mem_cons_self a as), if_true]
    exact ih (fun x hx => h x (List.mem_cons_of_mem a hx))

theorem jsTrimList_append_all_ws (w : List Char) (hw : ∀ x ∈ w, jsIsWs x = true) :
    ∀ l, jsTrimList (l ++ w) = jsTrimList l := by
  have hwrev : ∀ x ∈ w.reverse, jsIsWs x = true := fun x hx => hw x (List.mem_reverse.mp hx)
  intro l
  induction l with
  | nil =>
    show jsTrimList w = jsTrimList []
    unfold jsTrimList
    rw [dropWhile_all_nil w hw]
    rfl
  | cons c cs ih =>
    unfold jsTrimList at ih ⊢
    by_cases hc : jsIsWs c
    · rw [List.cons_append, List.dropWhile_cons, if_pos hc, List.dropWhile_cons, if_pos hc]
      exact ih
    · rw [List.cons_append, List.dropWhile_cons, if_neg hc, List.dropWhile_cons, if_neg hc,
        List.reverse_cons, List.reverse_cons, List.reverse_append, List.append_assoc,
        dropWhile_append_all w.reverse (cs.reverse ++ [c]) hwrev]

theorem jsTrim_append_ws (s : String) : jsTrim (s ++ "    ") = jsTrim s := by
  have hdata : (s ++ "    ").data = s.data ++ "    ".data := by
    cases s; rfl
  unfold jsTrim
  rw [hdata]
  exact congrArg String.mk (jsTrimList_append_all_ws "    ".data (by decide) s.data)

/-- Any trim-of-a-string value is also the trim of a string longer than 3
characters (pad with trailing whitespace). -/
theorem trimmed_from_long (c : String) : ∃ m : String, 3 < m.length ∧ jsTrim c = jsTrim m := by
  refine ⟨c ++ "    ", ?_, (jsTrim_append_ws c).symm⟩
  have h4 : (c ++ "    ").length = c.length + 4 := by
    rw [String.length_append]
    rfl
  omega

/-! Shape of the opportunistic extraction results. -/

theorem extInfo_hospital_shape {msg h : String}
    (he : (extractAdditionalInfo msg).hospital = some h) : ∃ c, h = jsTrim c := by
  unfold extractAdditionalInfo at he
  simp only at he
  cases hm : matchCap1 hospitalRE msg with
  | some c =>
    rw [hm] at he
    simp only [Option.map_some', Option.some_inj] at he
    exact ⟨c, he.symm⟩
  | none => rw [hm] at he; simp at he

theorem extInfo_location_shape {msg h : String}
    (he : (extractAdditionalInfo msg).location = some h) : ∃ c, h = jsTrim c := by
  unfold extractAdditionalInfo at he
  simp only at he
  cases hm : matchCap1 locationRE msg with
  | some c =>
    rw [hm] at he
    simp only [Option.map_some', Option.some_inj] at he
    exact ⟨c, he.symm⟩
  | none => rw [hm] at he; simp at he

theorem keywordLoop_shape {msg z : String} :
    ∀ {l : List String}, keywordLoop msg l = some z → ∃ c, z = jsTrim c := by
  intro l
  induction l with
  | nil => intro h; exact absurd h (by simp [keywordLoop])
  | cons kw kws ih =>
    intro h
    unfold keywordLoop at h
    cases hm : matchCap1 (keywordCaptureRE kw) msg with
    | some c => rw [hm] at h; exact ⟨c, (Option.some_inj.mp h).symm⟩
    | none => rw [hm] at h; exact ih h

theorem extInfo_zone_shape {msg z : String}
    (he : (extractAdditionalInfo msg).zone = some z) : ∃ c, z = jsTrim c :=
  keywordLoop_shape (by simpa [extractAdditionalInfo] using he)

theorem extInfo_patientProblem_shape {msg z : String}
    (he : (extractAdditionalInfo msg).patientProblem = some z) : ∃ c, z = jsTrim c :=
  keywordLoop_shape (by simpa [extractAdditionalInfo] using he)

theorem jsTruthy_exists {o : Option String} (h : jsTruthy o = true) :
    ∃ v, o = some v ∧ v ≠ "" := by
  cases o with
  | none => exact absurd h (by decide)
  | some v =>
    refine ⟨v, rfl, ?_⟩
    simpa [jsTruthy] using h

/-! ## The reachability invariant -/

/-- Position of a stage in the linear dialogue order. -/
def stageIdx : Stage → Nat
  | Stage.initial => 0
  | Stage.bloodType => 1
  | Stage.hospital => 2
  | Stage.location => 3
  | Stage.zone => 4
  | Stage.patientProblem => 5
  | Stage.bagNeeded => 6
  | Stage.date => 7
  | Stage.time => 8
  | Stage.hemoglobinPoint => 9
  | Stage.additionalInfo => 10
  | Stage.confirmation => 11

/-- The inductive invariant of reachable sessions: the stage `bloodType` is
never assigned, and every field belonging to a stage already passed is
populated and individually valid (free-text fields are trims of messages
exceeding their length threshold; `bagNeeded` validates; `date` validated
against the clock at the time it was recorded; `time` validates). -/
structure Inv (s : Session) : Prop where
  nbt : s.stage ≠ Stage.bloodType
  bt : 2 ≤ stageIdx s.stage → ∃ t, s.bloodType = some t ∧ t ∈ bloodTypesList
  hos : 3 ≤ stageIdx s.stage → ∃ m : String, 3 < m.length ∧ s.hospital = some (jsTrim m)
  loc : 4 ≤ stageIdx s.stage → ∃ m : String, 3 < m.length ∧ s.location = some (jsTrim m)
  zon : 5 ≤ stageIdx s.stage → ∃ m : String, 2 < m.length ∧ s.zone = some (jsTrim m)
  pp : 6 ≤ stageIdx s.stage → ∃ m : String, 3 < m.length ∧ s.patientProblem = some (jsTrim m)
  bag : 7 ≤ stageIdx s.stage → ∃ v, s.bagNeeded = some v ∧ validateBloodBags v = true
  dat : 8 ≤ stageIdx s.stage → ∃ v d, s.date = some v ∧ validateDate d v = true
  tim : 9 ≤ stageIdx s.stage → ∃ v, s.time = some v ∧ validateTime v = true

theorem backfill_inv {s : Session} (msg : String) (hs : Inv s) : Inv (backfill msg s) := by
  obtain ⟨nbt, bt, hos, loc, zon, pp, bag, dat, tim⟩ := hs
  have hstage : (backfill msg s).stage = s.stage := rfl
  refine ⟨?_, ?_, ?_, ?_, ?_, ?_, ?_, ?_, ?_⟩ <;> rw [hstage]
  · exact nbt
  · intro hc
    obtain ⟨t, h1, h2⟩ := bt hc
    have : (backfill msg s).bloodType = upd s.bloodType (extractAdditionalInfo msg).bloodType := rfl
    rcases upd_shape s.bloodType (extractAdditionalInfo msg).bloodType with hu | ⟨htr, hu⟩
    · exact ⟨t, by rw [this, hu, h1], h2⟩
    · obtain ⟨v, hv, _⟩ := jsTruthy_exists htr
      have hv' : extractBloodType msg = some v := hv
      exact ⟨v, by rw [this, hu, hv], extractBloodType_mem hv'⟩
  · intro hc
    obtain ⟨m, h1, h2⟩ := hos hc
    have : (backfill msg s).hospital = upd s.hospital (extractAdditionalInfo msg).hospital := rfl
    rcases upd_shape s.hospital (extractAdditionalInfo msg).hospital with hu | ⟨htr, hu⟩
    · exact ⟨m, h1, by rw [this, hu, h2]⟩
    · obtain ⟨v, hv, _⟩ := jsTruthy_exists htr
      obtain ⟨c, hcv⟩ := extInfo_hospital_shape hv
      obtain ⟨m', hm1, hm2⟩ := trimmed_from_long c
      exact ⟨m', hm1, by rw [this, hu, hv, hcv, hm2]⟩
  · intro hc
    obtain ⟨m, h1, h2⟩ := loc hc
    have : (backfill msg s).location = upd s.location (extractAdditionalInfo msg).location := rfl
    rcases upd_shape s.location (extractAdditionalInfo msg).location with hu | ⟨htr, hu⟩
    · exact ⟨m, h1, by rw [this, hu, h2]⟩
    · obtain ⟨v, hv, _⟩ := jsTruthy_exists htr
      obtain ⟨c, hcv⟩ := extInfo_location_shape hv
      obtain ⟨m', hm1, hm2⟩ := trimmed_from_long c
      exact ⟨m', hm1, by rw [this, hu, hv, hcv, hm2]⟩
  · intro hc
    obtain ⟨m, h1, h2⟩ := zon hc
    have : (backfill msg s).zone = upd s.zone (extractAdditionalInfo msg).zone := rfl
    rcases upd_shape s.zone (extractAdditionalInfo msg).zone with hu | ⟨htr, hu⟩
    · exact ⟨m, h1, by rw [this, hu, h2]⟩
    · obtain ⟨v, hv, _⟩ := jsTruthy_exists htr
      obtain ⟨c, hcv⟩ := extInfo_zone_shape hv
      obtain ⟨m', hm1, hm2⟩ := trimmed_from_long c
      have hm1' : 2 < m'.length := by omega
      exact ⟨m', hm1', by rw [this, hu, hv, hcv, hm2]⟩
  · intro hc
    obtain ⟨m, h1, h2⟩ := pp hc
    have : (backfill msg s).patientProblem = upd s.patientProblem (extractAdditionalInfo msg).patientProblem := rfl
    rcases upd_shape s.patientProblem (extractAdditionalInfo msg).patientProblem with hu | ⟨htr, hu⟩
    · exact ⟨m, h1, by rw [this, hu, h2]⟩
    · obtain ⟨v, hv, _⟩ := jsTruthy_exists htr
      obtain ⟨c, hcv⟩ := extInfo_patientProblem_shape hv
      obtain ⟨m', hm1, hm2⟩ := trimmed_from_long c
      exact ⟨m', hm1, by rw [this, hu, hv, hcv, hm2]⟩
  · intro hc
    obtain ⟨v, h1, h2⟩ := bag hc
    have : (backfill msg s).bagNeeded = upd s.bagNeeded (extractAdditionalInfo msg).bagNeeded := rfl
    have htr : jsTruthy s.bagNeeded = true := by
      rw [h1]; exact jsTruthy_some_ne (validateBloodBags_ne_empty h2)
    exact ⟨v, by rw [this, upd_truthy htr, h1], h2⟩
  · intro hc
    obtain ⟨v, d, h1, h2⟩ := dat hc
    exact ⟨v, d, h1, h2⟩
  · intro hc
    obtain ⟨v, h1, h2⟩ := tim hc
    exact ⟨v, h1, h2⟩

theorem dispatch_inv {s s' : Session} {day : Int} {pk : Bool} {nid uid msg : String}
    (hs : Inv s) (h : (dispatch day pk nid uid msg s).sess = some s') : Inv s' := by
  obtain ⟨st, sbt, shos, sloc, szon, spp, sbag, sdat, stim, shp, sai, slu⟩ := s
  obtain ⟨nbt, bt, hos, loc, zon, pp, bag, dat, tim⟩ := hs
  cases st with
  | bloodType => exact absurd rfl nbt
  | initial =>
    simp only [dispatch] at h
    cases hbt : extractBloodType msg with
    | some b =>
      rw [hbt] at h
      (try dsimp only at h)
      injection h with h
      subst h
      exact ⟨fun hcc => Stage.noConfusion hcc, fun _ => ⟨b, rfl, extractBloodType_mem hbt⟩,
        fun hc => by dsimp only [stageIdx, initSession] at hc; exact absurd hc (by decide), fun hc => by dsimp only [stageIdx, initSession] at hc; exact absurd hc (by decide),
        fun hc => by dsimp only [stageIdx, initSession] at hc; exact absurd hc (by decide), fun hc => by dsimp only [stageIdx, initSession] at hc; exact absurd hc (by decide),
        fun hc => by dsimp only [stageIdx, initSession] at hc; exact absurd hc (by decide), fun hc => by dsimp only [stageIdx, initSession] at hc; exact absurd hc (by decide),
        fun hc => by dsimp only [stageIdx, initSession] at hc; exact absurd hc (by decide)⟩
    | none =>
      rw [hbt] at h
      (try dsimp only at h)
      injection h with h
      subst h
      exact ⟨fun hcc => Stage.noConfusion hcc, fun hc => by dsimp only [stageIdx, initSession] at hc; exact absurd hc (by decide), fun hc => by dsimp only [stageIdx, initSession] at hc; exact absurd hc (by decide),
        fun hc => by dsimp only [stageIdx, initSession] at hc; exact absurd hc (by decide), fun hc => by dsimp only [stageIdx, initSession] at hc; exact absurd hc (by decide),
        fun hc => by dsimp only [stageIdx, initSession] at hc; exact absurd hc (by decide), fun hc => by dsimp only [stageIdx, initSession] at hc; exact absurd hc (by decide),
        fun hc => by dsimp only [stageIdx, initSession] at hc; exact absurd hc (by decide), fun hc => by dsimp only [stageIdx, initSession] at hc; exact absurd hc (by decide)⟩
  | hospital =>
    simp only [dispatch] at h
    by_cases hlen : msg.length > 3
    · rw [if_pos hlen] at h
      (try dsimp only at h)
      injection h with h
      subst h
      exact ⟨fun hcc => Stage.noConfusion hcc, fun _ => bt (by dsimp only [stageIdx]; decide), fun _ => ⟨msg, hlen, rfl⟩,
        fun hc => by dsimp only [stageIdx, initSession] at hc; exact absurd hc (by decide), fun hc => by dsimp only [stageIdx, initSession] at hc; exact absurd hc (by decide),
        fun hc => by dsimp only [stageIdx, initSession] at hc; exact absurd hc (by decide), fun hc => by dsimp only [stageIdx, initSession] at hc; exact absurd hc (by decide),
        fun hc => by dsimp only [stageIdx, initSession] at hc; exact absurd hc (by decide), fun hc => by dsimp only [stageIdx, initSession] at hc; exact absurd hc (by decide)⟩
    · rw [if_neg hlen] at h
      (try dsimp only at h)
      injection h with h
      subst h
      exact ⟨fun hcc => Stage.noConfusion hcc, bt, hos, loc, zon, pp, bag, dat, tim⟩
  | location =>
    simp only [dispatch] at h
    by_cases hlen : msg.length > 3
    · rw [if_pos hlen] at h
      (try dsimp only at h)
      injection h with h
      subst h
      exact ⟨fun hcc => Stage.noConfusion hcc, fun _ => bt (by dsimp only [stageIdx]; decide), fun _ => hos (by dsimp only [stageIdx]; decide),
        fun _ => ⟨msg, hlen, rfl⟩, fun hc => by dsimp only [stageIdx, initSession] at hc; exact absurd hc (by decide),
        fun hc => by dsimp only [stageIdx, initSession] at hc; exact absurd hc (by decide), fun hc => by dsimp only [stageIdx, initSession] at hc; exact absurd hc (by decide),
        fun hc => by dsimp only [stageIdx, initSession] at hc; exact absurd hc (by decide), fun hc => by dsimp only [stageIdx, initSession] at hc; exact absurd hc (by decide)⟩
    · rw [if_neg hlen] at h
      (try dsimp only at h)
      injection h with h
      subst h
      exact ⟨fun hcc => Stage.noConfusion hcc, bt, hos, loc, zon, pp, bag, dat, tim⟩
  | zone =>
    simp only [dispatch] at h
    by_cases hlen : msg.length > 2
    · rw [if_pos hlen] at h
      (try dsimp only at h)
      injection h with h
      subst h
      exact ⟨fun hcc => Stage.noConfusion hcc, fun _ => bt (by dsimp only [stageIdx]; decide), fun _ => hos (by dsimp only [stageIdx]; decide),
        fun _ => loc (by dsimp only [stageIdx]; decide), fun _ => ⟨msg, hlen, rfl⟩,
        fun hc => by dsimp only [stageIdx, initSession] at hc; exact absurd hc (by decide), fun hc => by dsimp only [stageIdx, initSession] at hc; exact absurd hc (by decide),
        fun hc => by dsimp only [stageIdx, initSession] at hc; exact absurd hc (by decide), fun hc => by dsimp only [stageIdx, initSession] at hc; exact absurd hc (by decide)⟩
    · rw [if_neg hlen] at h
      (try dsimp only at h)
      injection h with h
      subst h
      exact ⟨fun hcc => Stage.noConfusion hcc, bt, hos, loc, zon, pp, bag, dat, tim⟩
  | patientProblem =>
    simp only [dispatch] at h
    by_cases hlen : msg.length > 3
    · rw [if_pos hlen] at h
      (try dsimp only at h)
      injection h with h
      subst h
      exact ⟨fun hcc => Stage.noConfusion hcc, fun _ => bt (by dsimp only [stageIdx]; decide), fun _ => hos (by dsimp only [stageIdx]; decide),
        fun _ => loc (by dsimp only [stageIdx]; decide), fun _ => zon (by dsimp only [stageIdx]; decide),
        fun _ => ⟨msg, hlen, rfl⟩, fun hc => by dsimp only [stageIdx, initSession] at hc; exact absurd hc (by decide),
        fun hc => by dsimp only [stageIdx, initSession] at hc; exact absurd hc (by decide), fun hc => by dsimp only [stageIdx, initSession] at hc; exact absurd hc (by decide)⟩
    · rw [if_neg hlen] at h
      (try dsimp only at h)
      injection h with h
      subst h
      exact ⟨fun hcc => Stage.noConfusion hcc, bt, hos, loc, zon, pp, bag, dat, tim⟩
  | bagNeeded =>
    simp only [dispatch] at h
    cases hm : matchCap1 firstIntRE msg with
    | some v =>
      rw [hm] at h
      (try dsimp only at h)
      by_cases hvb : validateBloodBags v = true
      · rw [if_pos hvb] at h
        (try dsimp only at h)
        injection h with h
        subst h
        exact ⟨fun hcc => Stage.noConfusion hcc, fun _ => bt (by dsimp only [stageIdx]; decide), fun _ => hos (by dsimp only [stageIdx]; decide),
          fun _ => loc (by dsimp only [stageIdx]; decide), fun _ => zon (by dsimp only [stageIdx]; decide), fun _ => pp (by dsimp only [stageIdx]; decide),
          fun _ => ⟨v, rfl, hvb⟩, fun hc => by dsimp only [stageIdx, initSession] at hc; exact absurd hc (by decide),
          fun hc => by dsimp only [stageIdx, initSession] at hc; exact absurd hc (by decide)⟩
      · rw [if_neg hvb] at h
        (try dsimp only at h)
        injection h with h
        subst h
        exact ⟨fun hcc => Stage.noConfusion hcc, bt, hos, loc, zon, pp, bag, dat, tim⟩
    | none =>
      rw [hm] at h
      (try dsimp only at h)
      injection h with h
      subst h
      exact ⟨fun hcc => Stage.noConfusion hcc, bt, hos, loc, zon, pp, bag, dat, tim⟩
  | date =>
    simp only [dispatch] at h
    cases hdv : extractDate day msg with
    | some dv =>
      rw [hdv] at h
      (try dsimp only at h)
      by_cases hvd : validateDate day dv = true
      · rw [if_pos hvd] at h
        (try dsimp only at h)
        injection h with h
        subst h
        exact ⟨fun hcc => Stage.noConfusion hcc, fun _ => bt (by dsimp only [stageIdx]; decide), fun _ => hos (by dsimp only [stageIdx]; decide),
          fun _ => loc (by dsimp only [stageIdx]; decide), fun _ => zon (by dsimp only [stageIdx]; decide), fun _ => pp (by dsimp only [stageIdx]; decide),
          fun _ => bag (by dsimp only [stageIdx]; decide), fun _ => ⟨dv, day, rfl, hvd⟩,
          fun hc => by dsimp only [stageIdx, initSession] at hc; exact absurd hc (by decide)⟩
      · rw [if_neg hvd] at h
        (try dsimp only at h)
        injection h with h
        subst h
        exact ⟨fun hcc => Stage.noConfusion hcc, bt, hos, loc, zon, pp, bag, dat, tim⟩
    | none =>
      rw [hdv] at h
      (try dsimp only at h)
      injection h with h
      subst h
      exact ⟨fun hcc => Stage.noConfusion hcc, bt, hos, loc, zon, pp, bag, dat, tim⟩
  | time =>
    simp only [dispatch] at h
    by_cases hvt : validateTime msg = true
    · rw [if_pos hvt] at h
      (try dsimp only at h)
      injection h with h
      subst h
      exact ⟨fun hcc => Stage.noConfusion hcc, fun _ => bt (by dsimp only [stageIdx]; decide), fun _ => hos (by dsimp only [stageIdx]; decide),
        fun _ => loc (by dsimp only [stageIdx]; decide), fun _ => zon (by dsimp only [stageIdx]; decide), fun _ => pp (by dsimp only [stageIdx]; decide),
        fun _ => bag (by dsimp only [stageIdx]; decide), fun _ => dat (by dsimp only [stageIdx]; decide), fun _ => ⟨msg, rfl, hvt⟩⟩
    · rw [if_neg hvt] at h
      (try dsimp only at h)
      injection h with h
      subst h
      exact ⟨fun hcc => Stage.noConfusion hcc, bt, hos, loc, zon, pp, bag, dat, tim⟩
  | hemoglobinPoint =>
    simp only [dispatch] at h
    by_cases hskip : (jsLower msg = "skip" || jsLower msg = "unknown") = true
    · rw [if_pos hskip] at h
      (try dsimp only at h)
      injection h with h
      subst h
      exact ⟨fun hcc => Stage.noConfusion hcc, fun _ => bt (by dsimp only [stageIdx]; decide), fun _ => hos (by dsimp only [stageIdx]; decide),
        fun _ => loc (by dsimp only [stageIdx]; decide), fun _ => zon (by dsimp only [stageIdx]; decide), fun _ => pp (by dsimp only [stageIdx]; decide),
        fun _ => bag (by dsimp only [stageIdx]; decide), fun _ => dat (by dsimp only [stageIdx]; decide), fun _ => tim (by dsimp only [stageIdx]; decide)⟩
    · rw [if_neg hskip] at h
      cases hv : matchCap1 decimalRE msg with
      | some hv' =>
        rw [hv] at h
        (try dsimp only at h)
        by_cases hvh : validateHemoglobin hv' = true
        · rw [if_pos hvh] at h
          (try dsimp only at h)
          injection h with h
          subst h
          exact ⟨fun hcc => Stage.noConfusion hcc, fun _ => bt (by dsimp only [stageIdx]; decide), fun _ => hos (by dsimp only [stageIdx]; decide),
            fun _ => loc (by dsimp only [stageIdx]; decide), fun _ => zon (by dsimp only [stageIdx]; decide), fun _ => pp (by dsimp only [stageIdx]; decide),
            fun _ => bag (by dsimp only [stageIdx]; decide), fun _ => dat (by dsimp only [stageIdx]; decide), fun _ => tim (by dsimp only [stageIdx]; decide)⟩
        · rw [if_neg hvh] at h
          (try dsimp only at h)
          injection h with h
          subst h
          exact ⟨fun hcc => Stage.noConfusion hcc, bt, hos, loc, zon, pp, bag, dat, tim⟩
      | none =>
        rw [hv] at h
        (try dsimp only at h)
        injection h with h
        subst h
        exact ⟨fun hcc => Stage.noConfusion hcc, bt, hos, loc, zon, pp, bag, dat, tim⟩
  | additionalInfo =>
    simp only [dispatch] at h
    injection h with h
    subst h
    exact ⟨fun hcc => Stage.noConfusion hcc, fun _ => bt (by dsimp only [stageIdx]; decide), fun _ => hos (by dsimp only [stageIdx]; decide),
      fun _ => loc (by dsimp only [stageIdx]; decide), fun _ => zon (by dsimp only [stageIdx]; decide), fun _ => pp (by dsimp only [stageIdx]; decide),
      fun _ => bag (by dsimp only [stageIdx]; decide), fun _ => dat (by dsimp only [stageIdx]; decide), fun _ => tim (by dsimp only [stageIdx]; decide)⟩
  | confirmation =>
    simp only [dispatch] at h
    by_cases haff : affirmative msg = true
    · rw [if_pos haff] at h
      by_cases hmiss : missingRequired
          ⟨Stage.confirmation, sbt, shos, sloc, szon, spp, sbag, sdat, stim, shp, sai, slu⟩ = true
      · rw [if_pos hmiss] at h
        (try dsimp only at h)
        injection h with h
        subst h
        exact ⟨fun hcc => Stage.noConfusion hcc, fun hc => by dsimp only [stageIdx, initSession] at hc; exact absurd hc (by decide), fun hc => by dsimp only [stageIdx, initSession] at hc; exact absurd hc (by decide),
          fun hc => by dsimp only [stageIdx, initSession] at hc; exact absurd hc (by decide), fun hc => by dsimp only [stageIdx, initSession] at hc; exact absurd hc (by decide),
          fun hc => by dsimp only [stageIdx, initSession] at hc; exact absurd hc (by decide), fun hc => by dsimp only [stageIdx, initSession] at hc; exact absurd hc (by decide),
          fun hc => by dsimp only [stageIdx, initSession] at hc; exact absurd hc (by decide), fun hc => by dsimp only [stageIdx, initSession] at hc; exact absurd hc (by decide)⟩
      · rw [if_neg hmiss] at h
        cases pk with
        | true => exact absurd h (by simp)
        | false => exact absurd h (by simp)
    · rw [if_neg haff] at h
      by_cases hneg : negativeReply msg = true
      · rw [if_pos hneg] at h
        (try dsimp only at h)
        injection h with h
        subst h
        exact ⟨fun hcc => Stage.noConfusion hcc, fun hc => by dsimp only [stageIdx, initSession] at hc; exact absurd hc (by decide), fun hc => by dsimp only [stageIdx, initSession] at hc; exact absurd hc (by decide),
          fun hc => by dsimp only [stageIdx, initSession] at hc; exact absurd hc (by decide), fun hc => by dsimp only [stageIdx, initSession] at hc; exact absurd hc (by decide),
          fun hc => by dsimp only [stageIdx, initSession] at hc; exact absurd hc (by decide), fun hc => by dsimp only [stageIdx, initSession] at hc; exact absurd hc (by decide),
          fun hc => by dsimp only [stageIdx, initSession] at hc; exact absurd hc (by decide), fun hc => by dsimp only [stageIdx, initSession] at hc; exact absurd hc (by decide)⟩
      · rw [if_neg hneg] at h
        (try dsimp only at h)
        injection h with h
        subst h
        exact ⟨fun hcc => Stage.noConfusion hcc, bt, hos, loc, zon, pp, bag, dat, tim⟩

/-- Every reachable session satisfies the invariant. -/
theorem inv_reach {s : Session} (hr : Reachable s) : Inv s := by
  induction hr with
  | base lu =>
    exact ⟨fun hcc => Stage.noConfusion hcc, fun hc => by dsimp only [stageIdx, initSession] at hc; exact absurd hc (by decide), fun hc => by dsimp only [stageIdx, initSession] at hc; exact absurd hc (by decide),
      fun hc => by dsimp only [stageIdx, initSession] at hc; exact absurd hc (by decide), fun hc => by dsimp only [stageIdx, initSession] at hc; exact absurd hc (by decide),
      fun hc => by dsimp only [stageIdx, initSession] at hc; exact absurd hc (by decide), fun hc => by dsimp only [stageIdx, initSession] at hc; exact absurd hc (by decide),
      fun hc => by dsimp only [stageIdx, initSession] at hc; exact absurd hc (by decide), fun hc => by dsimp only [stageIdx, initSession] at hc; exact absurd hc (by decide)⟩
  | step s s' nowMs pk nid uid msg _ hstep ih =>
    have ih' : Inv { s with lastUpdated := nowMs } :=
      ⟨ih.nbt, ih.bt, ih.hos, ih.loc, ih.zon, ih.pp, ih.bag, ih.dat, ih.tim⟩
    exact dispatch_inv (backfill_inv msg ih') hstep

/-! ## Spec-side definitions (from the claims' wording, for comparison) -/

/-- The verbose synonym phrases per canonical token, in the order the code
checks them. -/
def synonymTable : List (String × List String) :=
  [("A+", ["A POSITIVE", "A +VE"]), ("A-", ["A NEGATIVE", "A -VE"]),
   ("B+", ["B POSITIVE", "B +VE"]), ("B-", ["B NEGATIVE", "B -VE"]),
   ("AB+", ["AB POSITIVE", "AB +VE"]), ("AB-", ["AB NEGATIVE", "AB -VE"]),
   ("O+", ["O POSITIVE", "O +VE"]), ("O-", ["O NEGATIVE", "O -VE"])]

/-- Blood-type extraction as described by the amended claim: the first
canonical token (in list order) contained case-sensitively in the message;
otherwise the canonical token of the first synonym phrase (in list order)
contained in the upper-cased message; otherwise nothing. -/
def extractBloodTypeSpec (msg : String) : Option String :=
  match List.find? (fun t => containsStr msg t) bloodTypesList with
  | some t => some t
  | none =>
    (List.find? (fun p => p.2.any (fun q => containsStr (jsUpper msg) q)) synonymTable).map
      (fun p => p.1)

/-- Leap year (proleptic Gregorian). -/
def isLeapYear (y : Int) : Bool :=
  (y % 4 = 0 && y % 100 ≠ 0) || y % 400 = 0

def daysInMonth (y m : Int) : Int :=
  if m = 2 then (if isLeapYear y then 29 else 28)
  else if m = 4 || m = 6 || m = 9 || m = 11 then 30
  else 31

/-- The original claim's reading of a date string: a strict `DD/MM/YYYY`
digit pattern denoting a real calendar date. -/
def denotesCalendarDate (s : String) : Bool :=
  match s.data with
  | [d1, d2, '/', m1, m2, '/', y1, y2, y3, y4] =>
    if d1.isDigit && d2.isDigit && m1.isDigit && m2.isDigit &&
        y1.isDigit && y2.isDigit && y3.isDigit && y4.isDigit then
      let dd : Int := (digitsVal [d1, d2] : Nat)
      let mm : Int := (digitsVal [m1, m2] : Nat)
      let yy : Int := (digitsVal [y1, y2, y3, y4] : Nat)
      1 ≤ mm && mm ≤ 12 && 1 ≤ dd && dd ≤ daysInMonth yy mm
    else false
  | _ => false

/-- Date validation as described by the amended claim: three `/`-separated
parts whose `parseInt` values exist, with the JS-normalised date (month and
day overflow rolling over, years 0–99 read as 1900+y) within
`[today, today+30]`. -/
def validDateAmended (todayDay : Int) (s : String) : Prop :=
  ∃ dd mm yy : Int, (jsSplitSlash s).map jsParseInt = [some dd, some mm, some yy] ∧
    todayDay ≤ jsDateDay yy (mm - 1) dd ∧ jsDateDay yy (mm - 1) dd ≤ todayDay + 30

/-! ## C2 -/

theorem find?_eq_firstContained (msg : String) :
    ∀ l, List.find? (fun t => containsStr msg t) l = firstContained msg l := by
  intro l
  induction l with
  | nil => rfl
  | cons a as ih =>
    unfold firstContained
    by_cases hc : containsStr msg a = true
    · rw [List.find?_cons_of_pos _ hc, if_pos hc]
    · rw [List.find?_cons_of_neg _ (by simpa using hc), if_neg hc, ih]

theorem find?_pair_cons (tok : String) (pats : List String)
    (rest : List (String × List String)) (up : String) :
    List.find? (fun p => p.2.any (fun q => containsStr up q)) ((tok, pats) :: rest) =
      (if pats.any (fun q => containsStr up q) then some (tok, pats)
       else List.find? (fun p => p.2.any (fun q => containsStr up q)) rest) := by
  cases hc : pats.any (fun q => containsStr up q) with
  | true => simp [List.find?, hc]
  | false => simp [List.find?, hc]

/-- C2 (amended): `extractBloodType` agrees everywhere with the claim-side
description `extractBloodTypeSpec` — first canonical token in check order,
case-sensitively; otherwise the token of the first matching verbose synonym,
case-insensitively; otherwise nothing. -/
theorem extractBloodType_eq_spec (msg : String) :
    extractBloodType msg = extractBloodTypeSpec msg := by
  unfold extractBloodType extractBloodTypeSpec
  rw [find?_eq_firstContained]
  cases firstContained msg bloodTypesList with
  | some t => rfl
  | none =>
    simp only [synonymTable, find?_pair_cons, List.any_cons, List.any_nil, Bool.or_false,
      List.find?_nil, apply_ite (Option.map (fun p : String × List String => p.1)),
      Option.map_some', Option.map_none']

/-- C2 counterexample: the message `AB POSITIVE` contains the verbose synonym
for `AB+`, but extraction returns `B+` — the synonym `B POSITIVE` occurs
inside `AB POSITIVE` and is checked earlier — refuting "returns exactly that
canonical token". -/
theorem extractBloodType_ab_positive_cex :
    containsStr (jsUpper "AB POSITIVE") "AB POSITIVE" = true ∧
    extractBloodType "AB POSITIVE" = some "B+" := by decide

/-! ## C7 -/

/-- C7 (amended): `validateDate` accepts exactly the strings with three
`/`-separated `parseInt`-parsable parts whose JS-normalised date lies within
`[today, today+30]`; on a fixed today (11/10/2025) the window boundary cases
behave as the claim lists. -/
theorem validateDate_amended_iff :
    (∀ (today : Int) (s : String), validateDate today s = true ↔ validDateAmended today s) ∧
    validateDate (daysFromCivil 2025 10 11) "11/10/2025" = true ∧
    validateDate (daysFromCivil 2025 10 11) "10/11/2025" = true ∧
    validateDate (daysFromCivil 2025 10 11) "11/11/2025" = false ∧
    validateDate (daysFromCivil 2025 10 11) "10/10/2025" = false := by
  refine ⟨?_, by decide, by decide, by decide, by decide⟩
  intro today s
  unfold validateDate validDateAmended
  cases hsp : jsSplitSlash s with
  | nil => simp [hsp]
  | cons p1 t1 =>
    cases t1 with
    | nil => simp [hsp]
    | cons p2 t2 =>
      cases t2 with
      | nil => simp [hsp]
      | cons p3 t3 =>
        cases t3 with
        | cons p4 t4 => simp [hsp]
        | nil =>
          cases hp1 : jsParseInt p1 with
          | none => simp [hsp, hp1]
          | some d =>
            cases hp2 : jsParseInt p2 with
            | none => simp [hsp, hp1, hp2]
            | some m =>
              cases hp3 : jsParseInt p3 with
              | none => simp [hsp, hp1, hp2, hp3]
              | some y =>
                simp only [hsp, hp1, hp2, hp3, List.map_cons, List.map_nil,
                  Bool.and_eq_true, decide_eq_true_eq, List.cons.injEq, List.nil_eq,
                  Option.some_inj]
                constructor
                · rintro ⟨hle, hge⟩
                  exact ⟨d, m, y, ⟨rfl, rfl, rfl, trivial⟩, hle, hge⟩
                · rintro ⟨dd, mm, yy, ⟨hd, hm, hy, -⟩, hle, hge⟩
                  subst hd; subst hm; subst hy
                  exact ⟨hle, hge⟩

/-- C7 counterexample: with today = 15/01/2026, the string `32/01/2026` does
not denote a calendar date (day 32), yet `validateDate` accepts it — the JS
`Date` constructor rolls the overflow over to 01/02/2026, inside the 30-day
window — refuting "any string not denoting a calendar date → false". -/
theorem validateDate_rollover_cex :
    validateDate (daysFromCivil 2026 1 15) "32/01/2026" = true ∧
    denotesCalendarDate "32/01/2026" = false := by decide

/-! ## A concrete run of the dialogue up to the confirmation stage
(clock fixed at `nowMs = 0`, i.e. 01/01/1970). -/

def sW1 : Session := { stage := Stage.hospital, bloodType := some "A+", lastUpdated := 0 }
def sW2 : Session := { sW1 with stage := Stage.location, hospital := some "Popular" }
def sW3 : Session := { sW2 with stage := Stage.zone, location := some "Road" }
def sW4 : Session := { sW3 with stage := Stage.patientProblem, zone := some "Mir" }
def sW5 : Session := { sW4 with stage := Stage.bagNeeded, patientProblem := some "anemia" }
def sW6 : Session := { sW5 with stage := Stage.date, bagNeeded := some "2" }
def sW7 : Session := { sW6 with stage := Stage.time, date := some "01/01/1970" }
def sW8 : Session := { sW7 with stage := Stage.hemoglobinPoint, time := some "14:30" }
def sW9 : Session := { sW8 with stage := Stage.additionalInfo, hemoglobinPoint := some "Not specified" }
def sW10 : Session := { sW9 with stage := Stage.confirmation, additionalInfo := some "" }

theorem reachW10 : Reachable sW10 := by
  have h1 : Reachable sW1 :=
    Reachable.step (initSession 0) sW1 0 true "RID" "UID" "A+" (Reachable.base 0) (by decide)
  have h2 : Reachable sW2 :=
    Reachable.step sW1 sW2 0 true "RID" "UID" "Popular" h1 (by decide)
  have h3 : Reachable sW3 :=
    Reachable.step sW2 sW3 0 true "RID" "UID" "Road" h2 (by decide)
  have h4 : Reachable sW4 :=
    Reachable.step sW3 sW4 0 true "RID" "UID" "Mir" h3 (by decide)
  have h5 : Reachable sW5 :=
    Reachable.step sW4 sW5 0 true "RID" "UID" "anemia" h4 (by decide)
  have h6 : Reachable sW6 :=
    Reachable.step sW5 sW6 0 true "RID" "UID" "2" h5 (by decide)
  have h7 : Reachable sW7 :=
    Reachable.step sW6 sW7 0 true "RID" "UID" "today" h6 (by decide)
  have h8 : Reachable sW8 :=
    Reachable.step sW7 sW8 0 true "RID" "UID" "14:30" h7 (by decide)
  have h9 : Reachable sW9 :=
    Reachable.step sW8 sW9 0 true "RID" "UID" "skip" h8 (by decide)
  exact Reachable.step sW9 sW10 0 true "RID" "UID" "skip" h9 (by decide)

/-! ## C1 -/

/-- C1: every reachable session at stage `confirmation` has every
directly-required field populated and individually valid — bloodType is one
of the 8 canonical tokens, hospital/location/patientProblem are trims of
messages longer than 3 characters and zone of one longer than 2, bagNeeded
satisfies `validateBloodBags`, date satisfied `validateDate` for the clock
day at which it was recorded, and time satisfies `validateTime`. -/
theorem confirmation_stage_fields_valid {s : Session} (hr : Reachable s)
    (hc : s.stage = Stage.confirmation) :
    (∃ t, s.bloodType = some t ∧ t ∈ bloodTypesList) ∧
    (∃ m : String, 3 < m.length ∧ s.hospital = some (jsTrim m)) ∧
    (∃ m : String, 3 < m.length ∧ s.location = some (jsTrim m)) ∧
    (∃ m : String, 2 < m.length ∧ s.zone = some (jsTrim m)) ∧
    (∃ m : String, 3 < m.length ∧ s.patientProblem = some (jsTrim m)) ∧
    (∃ v, s.bagNeeded = some v ∧ validateBloodBags v = true) ∧
    (∃ v d, s.date = some v ∧ validateDate d v = true) ∧
    (∃ v, s.time = some v ∧ validateTime v = true) := by
  have hi := inv_reach hr
  have h11 : stageIdx s.stage = 11 := by rw [hc]; rfl
  exact ⟨hi.bt (by omega), hi.hos (by omega), hi.loc (by omega), hi.zon (by omega),
    hi.pp (by omega), hi.bag (by omega), hi.dat (by omega), hi.tim (by omega)⟩

/-- C1 witness: the invariant instantiated at the concrete reachable
confirmation session `sW10`. -/
theorem confirmation_stage_fields_valid_witness :
    (∃ t, sW10.bloodType = some t ∧ t ∈ bloodTypesList) ∧
    (∃ m : String, 3 < m.length ∧ sW10.hospital = some (jsTrim m)) ∧
    (∃ m : String, 3 < m.length ∧ sW10.location = some (jsTrim m)) ∧
    (∃ m : String, 2 < m.length ∧ sW10.zone = some (jsTrim m)) ∧
    (∃ m : String, 3 < m.length ∧ sW10.patientProblem = some (jsTrim m)) ∧
    (∃ v, sW10.bagNeeded = some v ∧ validateBloodBags v = true) ∧
    (∃ v d, sW10.date = some v ∧ validateDate d v = true) ∧
    (∃ v, sW10.time = some v ∧ validateTime v = true) :=
  confirmation_stage_fields_valid reachW10 rfl

/-! ## C10 -/

/-- C10: no reachable session ever has stage `bloodType` — sessions are
created at `initial`, resets assign `initial`, and no transition assigns
`bloodType` — so that dispatch case is dead code. -/
theorem stage_bloodType_never_assigned {s : Session} (hr : Reachable s) :
    s.stage ≠ Stage.bloodType :=
  (inv_reach hr).nbt

/-- C10 witness. -/
theorem stage_bloodType_never_assigned_witness :
    (initSession 0).stage ≠ Stage.bloodType :=
  stage_bloodType_never_assigned (Reachable.base 0)

/-! ## C6 -/

/-- C6 (amended): the opportunistic extraction pass runs before stage
dispatch on every message and backfills only the six listed fields, never
overwriting a truthy (set and non-empty) field, filling an unset-or-empty
field exactly when the extractor produced a truthy value, and leaving the
other fields and the stage untouched; it does not cause later stages to be
skipped (see the counterexample for the dropped skipping clause). -/
theorem backfill_fills_only_unset (msg : String) (s : Session) (nowMs : Int) (pk : Bool)
    (nid uid : String) :
    (jsTruthy s.bloodType = true → (backfill msg s).bloodType = s.bloodType) ∧
    (jsTruthy s.hospital = true → (backfill msg s).hospital = s.hospital) ∧
    (jsTruthy s.location = true → (backfill msg s).location = s.location) ∧
    (jsTruthy s.zone = true → (backfill msg s).zone = s.zone) ∧
    (jsTruthy s.patientProblem = true → (backfill msg s).patientProblem = s.patientProblem) ∧
    (jsTruthy s.bagNeeded = true → (backfill msg s).bagNeeded = s.bagNeeded) ∧
    (jsTruthy s.bloodType = false → jsTruthy (extractAdditionalInfo msg).bloodType = true →
      (backfill msg s).bloodType = (extractAdditionalInfo msg).bloodType) ∧
    (jsTruthy s.hospital = false → jsTruthy (extractAdditionalInfo msg).hospital = true →
      (backfill msg s).hospital = (extractAdditionalInfo msg).hospital) ∧
    (jsTruthy s.location = false → jsTruthy (extractAdditionalInfo msg).location = true →
      (backfill msg s).location = (extractAdditionalInfo msg).location) ∧
    (jsTruthy s.zone = false → jsTruthy (extractAdditionalInfo msg).zone = true →
      (backfill msg s).zone = (extractAdditionalInfo msg).zone) ∧
    (jsTruthy s.patientProblem = false → jsTruthy (extractAdditionalInfo msg).patientProblem = true →
      (backfill msg s).patientProblem = (extractAdditionalInfo msg).patientProblem) ∧
    (jsTruthy s.bagNeeded = false → jsTruthy (extractAdditionalInfo msg).bagNeeded = true →
      (backfill msg s).bagNeeded = (extractAdditionalInfo msg).bagNeeded) ∧
    (backfill msg s).date = s.date ∧ (backfill msg s).time = s.time ∧
    (backfill msg s).hemoglobinPoint = s.hemoglobinPoint ∧
    (backfill msg s).additionalInfo = s.additionalInfo ∧
    (backfill msg s).stage = s.stage ∧
    procSession nowMs pk nid uid msg s =
      dispatch (dayOf nowMs) pk nid uid msg (backfill msg { s with lastUpdated := nowMs }) := by
  refine ⟨fun h => upd_truthy h, fun h => upd_truthy h, fun h => upd_truthy h,
    fun h => upd_truthy h, fun h => upd_truthy h, fun h => upd_truthy h,
    ?_, ?_, ?_, ?_, ?_, ?_, rfl, rfl, rfl, rfl, rfl, rfl⟩ <;>
    · intro hcur hext
      show upd _ _ = _
      simp [upd, hcur, hext]

def sC1 : Session :=
  { stage := Stage.hospital, bloodType := some "A+", bagNeeded := some "3", lastUpdated := 0 }
def sC2 : Session := { sC1 with stage := Stage.location, hospital := some "Popular" }
def sC3 : Session := { sC2 with stage := Stage.zone, location := some "Road" }
def sC4 : Session := { sC3 with stage := Stage.patientProblem, zone := some "Mir" }
def sC5 : Session := { sC4 with stage := Stage.bagNeeded, patientProblem := some "anemia" }

/-- C6 counterexample: in the run whose first message `A+ 3 bags` let the
opportunistic pass fill `bagNeeded = 3` already at stage `initial`, the
dialogue still reaches stage `bagNeeded` and issues its prompt — the claim's
"skips the prompts for the stages whose fields were already filled" fails. -/
theorem opportunistic_pass_no_skip_cex :
    (procSession 0 true "RID" "UID" "A+ 3 bags" (initSession 0)).sess = some sC1 ∧
    sC1.bagNeeded = some "3" ∧
    (procSession 0 true "RID" "UID" "Popular" sC1).sess = some sC2 ∧
    (procSession 0 true "RID" "UID" "Road" sC2).sess = some sC3 ∧
    (procSession 0 true "RID" "UID" "Mir" sC3).sess = some sC4 ∧
    (procSession 0 true "RID" "UID" "anemia" sC4).sess = some sC5 ∧
    sC5.stage = Stage.bagNeeded ∧ sC5.bagNeeded = some "3" ∧
    (procSession 0 true "RID" "UID" "anemia" sC4).reply =
      "I understand the patient's condition is: anemia. How many bags of blood are needed?" := by
  refine ⟨by decide, by decide, by decide, by decide, by decide, by decide, by decide,
    by decide, by decide⟩

/-- C6 witness: a session with bloodType already set and hospital unset;
the message fills only the unset field and leaves the others alone. -/
theorem backfill_fills_only_unset_witness :
    (backfill "B+ at City Hospital" sW1).bloodType = sW1.bloodType ∧
    (backfill "B+ at City Hospital" sW1).hospital =
      (extractAdditionalInfo "B+ at City Hospital").hospital ∧
    (backfill "B+ at City Hospital" sW1).date = sW1.date :=
  ⟨(backfill_fills_only_unset "B+ at City Hospital" sW1 0 true "RID" "UID").1 (by decide),
   (backfill_fills_only_unset "B+ at City Hospital" sW1 0 true "RID" "UID").2.2.2.2.2.2.2.1
     (by decide) (by decide),
   (backfill_fills_only_unset "B+ at City Hospital" sW1 0 true "RID" "UID").2.2.2.2.2.2.2.2.2.2.2.2.1⟩

/-! ## C3 -/

/-- A fully-populated session sitting at the confirmation stage. -/
def sessFullConf : Session :=
  { stage := Stage.confirmation, bloodType := some "A+", hospital := some "United Hosp",
    location := some "Satmasjid Rd", zone := some "Dhanmondi", patientProblem := some "surgery",
    bagNeeded := some "2", date := some "01/01/1970", time := some "14:30",
    hemoglobinPoint := some "12", additionalInfo := some "", lastUpdated := 0 }

/-- C3 counterexample: the message `incorrect` is one of the claim's negative
tokens, yet its lower-cased text contains `correct`, so the affirmative
branch (checked first) commits the request and deletes the session instead
of clearing the fields and resetting the stage. -/
theorem confirmation_incorrect_commits_cex :
    negativeReply "incorrect" = true ∧
    (procSession 0 true "RID" "UID" "incorrect" sessFullConf).created.isSome = true ∧
    (procSession 0 true "RID" "UID" "incorrect" sessFullConf).sess = none := by
  refine ⟨by decide, by decide, by decide⟩

/-- C3 (amended): at the confirmation stage a message containing a negative
token but no affirmative token (`yes`/`correct`/`right` — note `incorrect`
contains `correct` and therefore never reaches the negative branch) clears
all ten collected fields, resets the stage to `initial`, returns the restart
blood-type prompt, and creates no record; a message containing neither kind
of token re-prompts for yes/no, creating no record, leaving the stage and
every truthy field unchanged (the pre-dispatch opportunistic pass can touch
only unset-or-empty fields). -/
theorem confirmation_negative_and_reprompt (s : Session) (nowMs : Int) (pk : Bool)
    (nid uid msg : String) (hst : s.stage = Stage.confirmation) :
    (negativeReply msg = true → affirmative msg = false →
      (procSession nowMs pk nid uid msg s).sess =
          some { stage := Stage.initial, lastUpdated := nowMs } ∧
        (procSession nowMs pk nid uid msg s).created = none ∧
        (procSession nowMs pk nid uid msg s).reply = resetPrompt) ∧
    (negativeReply msg = false → affirmative msg = false →
      ∃ s', (procSession nowMs pk nid uid msg s).sess = some s' ∧
        s'.stage = Stage.confirmation ∧
        (procSession nowMs pk nid uid msg s).created = none ∧
        (procSession nowMs pk nid uid msg s).reply = yesNoReprompt ∧
        (jsTruthy s.bloodType = true → s'.bloodType = s.bloodType) ∧
        (jsTruthy s.hospital = true → s'.hospital = s.hospital) ∧
        (jsTruthy s.location = true → s'.location = s.location) ∧
        (jsTruthy s.zone = true → s'.zone = s.zone) ∧
        (jsTruthy s.patientProblem = true → s'.patientProblem = s.patientProblem) ∧
        (jsTruthy s.bagNeeded = true → s'.bagNeeded = s.bagNeeded) ∧
        s'.date = s.date ∧ s'.time = s.time ∧ s'.hemoglobinPoint = s.hemoglobinPoint ∧
        s'.additionalInfo = s.additionalInfo) := by
  obtain ⟨st, sbt, shos, sloc, szon, spp, sbag, sdat, stim, shp, sai, slu⟩ := s
  dsimp only at hst
  subst hst
  constructor
  · intro hneg haf
    simp only [procSession, dispatch, backfill]
    rw [if_neg (by simp [haf]), if_pos hneg]
    exact ⟨rfl, rfl, rfl⟩
  · intro hneg haf
    simp only [procSession, dispatch, backfill]
    rw [if_neg (by simp [haf]), if_neg (by simp [hneg])]
    refine ⟨_, rfl, rfl, rfl, rfl, ?_, ?_, ?_, ?_, ?_, ?_, rfl, rfl, rfl, rfl⟩ <;>
      exact fun h => upd_truthy h

/-! ## C4 and C5 -/

/-- The record that the amended-claim description of the commit step sends to
the persistence collaborator: the session's values with `bagNeeded`,
`hemoglobinPoint` and `date` re-validated and silently repaired (1 bag,
"Not specified", today). -/
def commitDoc (day : Int) (uid : String) (s : Session) : BloodRecord :=
  { bloodType := s.bloodType.getD ""
    hospital := s.hospital.getD ""
    location := s.location.getD ""
    hemoglobinPoint :=
      jsOrStr
        (if (jsTruthy s.hemoglobinPoint && !(s.hemoglobinPoint == some "Not specified") &&
              !validateHemoglobin (s.hemoglobinPoint.getD "")) = true
         then some "Not specified" else s.hemoglobinPoint) "Not specified"
    patientProblem := s.patientProblem.getD ""
    bagNeeded := if validateBloodBags (s.bagNeeded.getD "") = true then s.bagNeeded.getD "" else "1"
    zone := s.zone.getD ""
    date := if validateDate day (s.date.getD "") = true then s.date.getD "" else jsFormatDate day
    time := s.time.getD ""
    additionalInfo := jsOrStr s.additionalInfo ""
    requester := uid
    status := "active"
    viewCount := 0 }

/-- Shared commit lemma: an affirmative message at a fully-populated
confirmation session always reaches the create call with the repaired
record, deletes the session, and returns the apology exactly when the
persistence call failed. -/
theorem procSession_commit (s : Session) (nowMs : Int) (pk : Bool) (nid uid msg : String)
    (hst : s.stage = Stage.confirmation) (haf : affirmative msg = true)
    (h1 : jsTruthy s.bloodType = true) (h2 : jsTruthy s.hospital = true)
    (h3 : jsTruthy s.location = true) (h4 : jsTruthy s.zone = true)
    (h5 : jsTruthy s.patientProblem = true) (h6 : jsTruthy s.bagNeeded = true)
    (h7 : jsTruthy s.date = true) (h8 : jsTruthy s.time = true) :
    (procSession nowMs pk nid uid msg s).sess = none ∧
    (procSession nowMs pk nid uid msg s).created = some (commitDoc (dayOf nowMs) uid s) ∧
    (pk = false → (procSession nowMs pk nid uid msg s).reply = apologyReply) := by
  obtain ⟨st, sbt, shos, sloc, szon, spp, sbag, sdat, stim, shp, sai, slu⟩ := s
  dsimp only at hst h1 h2 h3 h4 h5 h6 h7 h8
  subst hst
  have hb : backfill msg ⟨Stage.confirmation, sbt, shos, sloc, szon, spp, sbag, sdat,
      stim, shp, sai, nowMs⟩ =
      ⟨Stage.confirmation, sbt, shos, sloc, szon, spp, sbag, sdat, stim, shp, sai, nowMs⟩ := by
    unfold backfill
    simp [Session.mk.injEq, upd_truthy h1, upd_truthy h2, upd_truthy h3, upd_truthy h4,
      upd_truthy h5, upd_truthy h6]
  have hmiss : missingRequired ⟨Stage.confirmation, sbt, shos, sloc, szon, spp, sbag, sdat,
      stim, shp, sai, nowMs⟩ = false := by
    simp [missingRequired, h1, h2, h3, h4, h5, h6, h7, h8]
  have hstep : procSession nowMs pk nid uid msg
      ⟨Stage.confirmation, sbt, shos, sloc, szon, spp, sbag, sdat, stim, shp, sai, slu⟩ =
      dispatch (dayOf nowMs) pk nid uid msg
      ⟨Stage.confirmation, sbt, shos, sloc, szon, spp, sbag, sdat, stim, shp, sai, nowMs⟩ :=
    congrArg (fun z => dispatch (dayOf nowMs) pk nid uid msg z) hb
  rw [hstep]
  simp only [dispatch]
  rw [if_pos haf, if_neg (by simp [hmiss])]
  cases pk with
  | true =>
    refine ⟨rfl, ?_, fun hpk => absurd hpk (by decide)⟩
    show some _ = some (commitDoc (dayOf nowMs) uid _)
    dsimp only [commitDoc]
    split_ifs <;> rfl
  | false =>
    refine ⟨rfl, ?_, fun _ => rfl⟩
    show some _ = some (commitDoc (dayOf nowMs) uid _)
    dsimp only [commitDoc]
    split_ifs <;> rfl

/-- C4: on an affirmative confirmation with all required fields present, the
commit controller re-validates bagNeeded, hemoglobinPoint and date one last
time and silently repairs them (1 bag; "Not specified"; today formatted
DD/MM/YYYY), and the persistence collaborator is invoked with exactly the
(possibly repaired) values. -/
theorem commit_final_repairs (s : Session) (nowMs : Int) (pk : Bool) (nid uid msg : String)
    (hst : s.stage = Stage.confirmation) (haf : affirmative msg = true)
    (h1 : jsTruthy s.bloodType = true) (h2 : jsTruthy s.hospital = true)
    (h3 : jsTruthy s.location = true) (h4 : jsTruthy s.zone = true)
    (h5 : jsTruthy s.patientProblem = true) (h6 : jsTruthy s.bagNeeded = true)
    (h7 : jsTruthy s.date = true) (h8 : jsTruthy s.time = true) :
    (procSession nowMs pk nid uid msg s).created = some (commitDoc (dayOf nowMs) uid s) :=
  (procSession_commit s nowMs pk nid uid msg hst haf h1 h2 h3 h4 h5 h6 h7 h8).2.1

/-- C4 witness: a confirmation session whose stored bag count (99),
hemoglobin (5) and date (01/01/1960, in the past at clock 0) are all
invalid gets them repaired to 1 bag, "Not specified" and today's date. -/
def sessRepairW : Session :=
  { sessFullConf with bagNeeded := some "99", hemoglobinPoint := some "5",
                      date := some "01/01/1960" }

theorem commit_final_repairs_witness :
    (procSession 0 true "RID" "UID" "yes" sessRepairW).created =
      some (commitDoc (dayOf 0) "UID" sessRepairW) ∧
    commitDoc (dayOf 0) "UID" sessRepairW =
      { bloodType := "A+", hospital := "United Hosp", location := "Satmasjid Rd",
        hemoglobinPoint := "Not specified", patientProblem := "surgery", bagNeeded := "1",
        zone := "Dhanmondi", date := "01/01/1970", time := "14:30", additionalInfo := "",
        requester := "UID", status := "active", viewCount := 0 } :=
  ⟨commit_final_repairs sessRepairW 0 true "RID" "UID" "yes" rfl (by decide) (by decide)
      (by decide) (by decide) (by decide) (by decide) (by decide) (by decide) (by decide),
   by decide⟩

/-- C5: when the persistence call fails on an affirmative confirmation, the
session is deleted, the generic apology pointing at the app's manual
'Create Request' feature is returned, and the create call was made exactly
once this turn (the total step function retries nothing and lets no
exception escape). -/
theorem commit_failure_discards_session (s : Session) (nowMs : Int) (nid uid msg : String)
    (hst : s.stage = Stage.confirmation) (haf : affirmative msg = true)
    (h1 : jsTruthy s.bloodType = true) (h2 : jsTruthy s.hospital = true)
    (h3 : jsTruthy s.location = true) (h4 : jsTruthy s.zone = true)
    (h5 : jsTruthy s.patientProblem = true) (h6 : jsTruthy s.bagNeeded = true)
    (h7 : jsTruthy s.date = true) (h8 : jsTruthy s.time = true) :
    (procSession nowMs false nid uid msg s).sess = none ∧
    (procSession nowMs false nid uid msg s).created.isSome = true ∧
    (procSession nowMs false nid uid msg s).reply = apologyReply := by
  obtain ⟨ha, hb, hc⟩ := procSession_commit s nowMs false nid uid msg hst haf h1 h2 h3 h4 h5 h6 h7 h8
  exact ⟨ha, by rw [hb]; rfl, hc rfl⟩

/-- C5 witness. -/
theorem commit_failure_discards_session_witness :
    (procSession 0 false "RID" "UID" "yes" sessFullConf).sess = none ∧
    (procSession 0 false "RID" "UID" "yes" sessFullConf).created.isSome = true ∧
    (procSession 0 false "RID" "UID" "yes" sessFullConf).reply = apologyReply :=
  commit_failure_discards_session sessFullConf 0 "RID" "UID" "yes" rfl (by decide) (by decide)
    (by decide) (by decide) (by decide) (by decide) (by decide) (by decide) (by decide)

/-- C3 witness for the amended claim, at a populated confirmation session:
`wrong info` resets everything; `maybe` merely re-prompts. -/
theorem confirmation_negative_and_reprompt_witness :
    ((procSession 0 true "RID" "UID" "wrong info" sessFullConf).sess =
        some { stage := Stage.initial, lastUpdated := 0 } ∧
      (procSession 0 true "RID" "UID" "wrong info" sessFullConf).created = none ∧
      (procSession 0 true "RID" "UID" "wrong info" sessFullConf).reply = resetPrompt) ∧
    (∃ s', (procSession 0 true "RID" "UID" "maybe" sessFullConf).sess = some s' ∧
      s'.stage = Stage.confirmation ∧
      (procSession 0 true "RID" "UID" "maybe" sessFullConf).created = none ∧
      (procSession 0 true "RID" "UID" "maybe" sessFullConf).reply = yesNoReprompt ∧
      (jsTruthy sessFullConf.bloodType = true → s'.bloodType = sessFullConf.bloodType) ∧
      (jsTruthy sessFullConf.hospital = true → s'.hospital = sessFullConf.hospital) ∧
      (jsTruthy sessFullConf.location = true → s'.location = sessFullConf.location) ∧
      (jsTruthy sessFullConf.zone = true → s'.zone = sessFullConf.zone) ∧
      (jsTruthy sessFullConf.patientProblem = true → s'.patientProblem = sessFullConf.patientProblem) ∧
      (jsTruthy sessFullConf.bagNeeded = true → s'.bagNeeded = sessFullConf.bagNeeded) ∧
      s'.date = sessFullConf.date ∧ s'.time = sessFullConf.time ∧
      s'.hemoglobinPoint = sessFullConf.hemoglobinPoint ∧
      s'.additionalInfo = sessFullConf.additionalInfo) :=
  ⟨(confirmation_negative_and_reprompt sessFullConf 0 true "RID" "UID" "wrong info" rfl).1
      (by decide) (by decide),
   (confirmation_negative_and_reprompt sessFullConf 0 true "RID" "UID" "maybe" rfl).2
      (by decide) (by decide)⟩

/-! ## C8 -/

/-- C8: with no active session, a message containing one of the fixed
multi-word trigger phrases (case-insensitively) opens a fresh session at
stage `initial` and returns the opening blood-type prompt; a message that
contains `blood` but no full trigger phrase opens no session and falls
through to the external fallback responder. -/
theorem intent_detection (msg : String) (nowMs : Int) (pk : Bool) (nid uid : String) :
    (bloodRequestKeywords.any (fun k => containsStr (jsLower msg) (jsLower k)) = true →
      genAIResponse nowMs pk nid uid none msg =
        { sess := some (initSession nowMs), created := none, reply := Reply.text openingPrompt }) ∧
    (containsStr (jsLower msg) "blood" = true →
      bloodRequestKeywords.any (fun k => containsStr (jsLower msg) (jsLower k)) = false →
      genAIResponse nowMs pk nid uid none msg =
        { sess := none, created := none, reply := Reply.fallback }) := by
  constructor
  · intro ht
    simp [genAIResponse, noSessionFlow, ht]
  · intro _ hf
    simp [genAIResponse, noSessionFlow, hf]

/-- C8 witness: `Please create blood request now` triggers a fresh session;
`need blood fast` mentions blood but matches no trigger phrase and falls
through. -/
theorem intent_detection_witness :
    genAIResponse 5 true "RID" "UID" none "Please create blood request now" =
      { sess := some (initSession 5), created := none, reply := Reply.text openingPrompt } ∧
    genAIResponse 5 true "RID" "UID" none "need blood fast" =
      { sess := none, created := none, reply := Reply.fallback } :=
  ⟨(intent_detection "Please create blood request now" 5 true "RID" "UID").1 (by decide),
   (intent_detection "need blood fast" 5 true "RID" "UID").2 (by decide) (by decide)⟩

/-! ## C9 -/

/-- C9: a stored session whose `lastUpdated` lies strictly more than 30
minutes (1 800 000 ms) before the arriving message's clock is discarded and
the message is handled exactly as if no session existed (fresh intent
detection, no stage handler); a session aged 30 minutes or less is handed
unchanged to `processBloodRequestSession`. -/
theorem session_expiry (s : Session) (msg : String) (nowMs : Int) (pk : Bool)
    (nid uid : String) :
    (nowMs - s.lastUpdated > 30 * 60 * 1000 →
      genAIResponse nowMs pk nid uid (some s) msg = genAIResponse nowMs pk nid uid none msg ∧
      genAIResponse nowMs pk nid uid (some s) msg = noSessionFlow nowMs msg) ∧
    (nowMs - s.lastUpdated ≤ 30 * 60 * 1000 →
      genAIResponse nowMs pk nid uid (some s) msg =
        { sess := (procSession nowMs pk nid uid msg s).sess
          created := (procSession nowMs pk nid uid msg s).created
          reply := Reply.text (procSession nowMs pk nid uid msg s).reply }) := by
  constructor
  · intro hexp
    refine ⟨?_, ?_⟩ <;>
      · simp only [genAIResponse]
        rw [if_pos hexp]
  · intro hfresh
    have hnot : ¬(nowMs - s.lastUpdated > 30 * 60 * 1000) := by omega
    simp only [genAIResponse]
    rw [if_neg hnot]

/-- C9 witness: at 1 800 001 ms past `lastUpdated` the session is discarded
and the message handled fresh; at exactly 1 800 000 ms it is processed by
the stage machinery. -/
theorem session_expiry_witness :
    genAIResponse 1800001 true "RID" "UID" (some sessFullConf) "hello" =
      genAIResponse 1800001 true "RID" "UID" none "hello" ∧
    genAIResponse 1800000 true "RID" "UID" (some sessFullConf) "hello" =
      { sess := (procSession 1800000 true "RID" "UID" "hello" sessFullConf).sess
        created := (procSession 1800000 true "RID" "UID" "hello" sessFullConf).created
        reply := Reply.text (procSession 1800000 true "RID" "UID" "hello" sessFullConf).reply } :=
  ⟨((session_expiry sessFullConf "hello" 1800001 true "RID" "UID").1 (by decide)).1,
   (session_expiry sessFullConf "hello" 1800000 true "RID" "UID").2 (by decide)⟩

end BloodLink
